import Mathlib

/-!
Verification development for the glorypicks multi-strategy signal engine
(`backend/app/engine/*`, `backend/app/indicators/*`, `backend/app/models/*`).

Shallow embedding conventions:
* Python floats are modeled as `ℚ` (exact arithmetic; the float tolerances the
  spec quotes, e.g. 1e-6 for the MACD histogram identity, are subsumed by
  exact equality).
* Python exceptions are modeled with `Except PyErr`; a function that cannot
  raise on any input returns plainly.
* Mutable instance state (`ICTStrategies`, `SMCStrategies`) is threaded
  explicitly: each method takes the state and returns the updated state.
* `ℚ` division is total with `x / 0 = 0`; every place the source divides, the
  divisor is nonzero on the inputs evaluated concretely, and no universally
  quantified theorem below depends on the value of a division by zero.
* Human-readable rationale strings are presentation-only (no claim below
  concerns them) and are omitted from result structures; the one place where
  building a rationale string raises (`_detect_inducements`' f-string reads
  the unbound name `wick_percentage`) is modeled as `PyErr.nameError`.
* `datetime.utcnow()` in `SignalEngine.generate_signal` is modeled as an
  explicit timestamp parameter `now`.
-/

set_option maxRecDepth 1000000
set_option maxHeartbeats 2000000

/- Equality of embedded fallible results is decidable (used to evaluate the
pipeline on concrete fixtures). -/
deriving instance DecidableEq for Except

namespace GloryPicks

/-- Python exceptions that the embedded code can raise. -/
inductive PyErr where
  | nameError
  | valueError
  | keyError
  | indexError
  | validationError
deriving Repr, DecidableEq

/-- OHLCV candle (`app.models.Candle`): unix seconds and float fields. -/
structure Candle where
  t : ℤ
  o : ℚ
  h : ℚ
  l : ℚ
  c : ℚ
  v : ℚ
deriving Repr, DecidableEq, Inhabited

/-- Sum of a float list (Python `sum` / `np.sum`). -/
def pySum (l : List ℚ) : ℚ := l.foldl (· + ·) 0

/-- Arithmetic mean (`np.mean`); on the empty list the source yields NaN, here 0/0 = 0. -/
def pyMean (l : List ℚ) : ℚ := pySum l / (l.length : ℚ)

/-- `l[-n:]` / `pd.DataFrame.tail(n)`: the last `min n (length l)` elements. -/
def tailN (n : ℕ) (l : List α) : List α := l.drop (l.length - n)

/-- `l[-1]` on a nonempty list (callers guard nonemptiness). -/
def lastD [Inhabited α] (l : List α) : α := l.getLastD default

/-- Python `max` over a float list; `none` for the empty list (where Python raises). -/
def maxQ? (l : List ℚ) : Option ℚ :=
  l.foldl (fun acc x => some (match acc with | none => x | some m => max m x)) none

/-- Python `min` over a float list; `none` for the empty list (where Python raises). -/
def minQ? (l : List ℚ) : Option ℚ :=
  l.foldl (fun acc x => some (match acc with | none => x | some m => min m x)) none

/-- `max(l)` with a default, used where nonemptiness is guaranteed by a guard. -/
def maxQD (l : List ℚ) (d : ℚ) : ℚ := (maxQ? l).getD d

/-- `min(l)` with a default, used where nonemptiness is guaranteed by a guard. -/
def minQD (l : List ℚ) (d : ℚ) : ℚ := (minQ? l).getD d

/-- Python `int(x)` on a float: truncation toward zero. -/
def pyIntTrunc (q : ℚ) : ℤ := Int.tdiv q.num (q.den : ℤ)

/-- `np.diff`: consecutive differences. -/
def diffs : List ℚ → List ℚ
  | a :: b :: t => (b - a) :: diffs (b :: t)
  | _ => []

/-- Population variance (`np.std` squared); std comparisons in the source are
embedded as the equivalent variance comparisons, see `AIEnhancer`. -/
def varPop (l : List ℚ) : ℚ :=
  let m := pyMean l
  pyMean (l.map fun x => (x - m) * (x - m))

namespace Indicators

/-- Mean of the `p`-window of `prices` starting at index `i`: one entry of
`np.convolve(prices, np.ones(p)/p, mode='valid')`. -/
def windowMean (prices : List ℚ) (i p : ℕ) : ℚ :=
  pySum ((prices.drop i).take p) / (p : ℚ)

/-- `Indicators.sma`: `None` for the first `period-1` indices, the sliding
window mean afterwards; all-`None` when the list is shorter than the period. -/
def sma (prices : List ℚ) (period : ℕ) : List (Option ℚ) :=
  if prices.length < period then List.replicate prices.length none
  else
    List.replicate (period - 1) none ++
      (List.range (prices.length - period + 1)).map fun i => some (windowMean prices i period)

/-- `np.where(deltas > 0, deltas, 0)`. -/
def gains (prices : List ℚ) : List ℚ := (diffs prices).map fun d => if 0 < d then d else 0

/-- `np.where(deltas < 0, -deltas, 0)`. -/
def losses (prices : List ℚ) : List ℚ := (diffs prices).map fun d => if d < 0 then -d else 0

/-- Wilder smoothing of `xs`: value at array index `period + k`; seeded with
the simple mean of the first `period` entries, then
`avg[i] = (avg[i-1]*(period-1) + xs[i-1]) / period`. -/
def wilderAt (xs : List ℚ) (period : ℕ) : ℕ → ℚ
  | 0 => pyMean (xs.take period)
  | k + 1 => (wilderAt xs period k * ((period : ℚ) - 1) + xs.getD (period + k) 0) / (period : ℚ)

/-- `avg_gain[i]` of `Indicators.rsi` (meaningful for `i ≥ period`). -/
def avgGainAt (prices : List ℚ) (period i : ℕ) : ℚ := wilderAt (gains prices) period (i - period)

/-- `avg_loss[i]` of `Indicators.rsi` (meaningful for `i ≥ period`). -/
def avgLossAt (prices : List ℚ) (period i : ℕ) : ℚ := wilderAt (losses prices) period (i - period)

/-- One RSI value: `rs = np.where(avg_loss != 0, avg_gain/avg_loss, 0)`,
`rsi = 100 - 100/(1+rs)`. -/
def rsiAt (prices : List ℚ) (period i : ℕ) : ℚ :=
  let rs := if avgLossAt prices period i ≠ 0 then avgGainAt prices period i / avgLossAt prices period i else 0
  100 - 100 / (1 + rs)

/-- `Indicators.rsi`: `None` for the first `period` indices, then one value per
index; all-`None` when fewer than `period+1` prices. -/
def rsi (prices : List ℚ) (period : ℕ) : List (Option ℚ) :=
  if prices.length < period + 1 then List.replicate prices.length none
  else
    List.replicate period none ++
      (List.range (prices.length - period)).map fun k => some (rsiAt prices period (period + k))

/-- `Indicators._ema` as an index function over the array it fills: zero below
the seed index, `mean(data[:p])` at index `p-1`, then
`ema[i] = α·data[i] + (1-α)·ema[i-1]` with `α = 2/(p+1)`. -/
def emaVal (data : List ℚ) (p : ℕ) : ℕ → ℚ
  | 0 => if p ≤ 1 then pyMean (data.take p) else 0
  | i + 1 =>
    if i + 1 < p - 1 then 0
    else if i + 2 = p then pyMean (data.take p)
    else (2 / ((p : ℚ) + 1)) * data.getD (i + 1) 0 +
      (1 - 2 / ((p : ℚ) + 1)) * emaVal data p i

/-- `macd_line[i] = ema_fast[i] - ema_slow[i]` (over the full arrays, zeros
included, exactly as the source subtracts the two `np.ndarray`s). -/
def macdLineAt (prices : List ℚ) (fast slow : ℕ) (i : ℕ) : ℚ :=
  emaVal prices fast i - emaVal prices slow i

/-- The full `macd_line` array. -/
def macdLineArr (prices : List ℚ) (fast slow : ℕ) : List ℚ :=
  (List.range prices.length).map (macdLineAt prices fast slow)

/-- `signal_line[i]`: EMA of the full `macd_line` array. -/
def signalAt (prices : List ℚ) (fast slow signalp : ℕ) (i : ℕ) : ℚ :=
  emaVal (macdLineArr prices fast slow) signalp i

/-- `histogram[i] = macd_line[i] - signal_line[i]` (pointwise array subtraction). -/
def histAt (prices : List ℚ) (fast slow signalp : ℕ) (i : ℕ) : ℚ :=
  macdLineAt prices fast slow i - signalAt prices fast slow signalp i

/-- The three lists `Indicators.macd` returns. -/
structure MacdOut where
  macd_line : List (Option ℚ)
  signal_line : List (Option ℚ)
  histogram : List (Option ℚ)
deriving Repr, DecidableEq

/-- `Indicators.macd`. The early return for `len < slow` precedes any EMA, as
in the source. `_ema(data, p)` with `p > len(data)` raises `IndexError` on the
seed assignment; a zero period hits NumPy negative-indexing/NaN quirks the
spec's positive default periods never reach, and is modeled as the same error. -/
def macd (prices : List ℚ) (fast slow signalp : ℕ) : Except PyErr MacdOut :=
  let n := prices.length
  if n < slow then
    .ok ⟨List.replicate n none, List.replicate n none, List.replicate n none⟩
  else if fast = 0 ∨ slow = 0 ∨ signalp = 0 ∨ n < fast ∨ n < signalp then
    .error .indexError
  else
    let minp := slow + signalp - 1
    .ok ⟨(List.range n).map fun i => if slow - 1 ≤ i then some (macdLineAt prices fast slow i) else none,
         (List.range n).map fun i => if minp ≤ i then some (signalAt prices fast slow signalp i) else none,
         (List.range n).map fun i => if minp ≤ i then some (histAt prices fast slow signalp i) else none⟩

/-- The EMA recurrence continued from a known value: `emaFrom data p start a m`
is the value `m` steps after index `start` when the value at `start` is `a`.
Evaluation infrastructure: it lets the deep `emaVal` chain be computed in
stages (see `emaVal_from`). -/
def emaFrom (data : List ℚ) (p : ℕ) (start : ℕ) (a : ℚ) : ℕ → ℚ
  | 0 => a
  | m + 1 =>
    (2 / ((p : ℚ) + 1)) * data.getD (start + m + 1) 0 +
      (1 - 2 / ((p : ℚ) + 1)) * emaFrom data p start a m

/-- The indicator bundle `calculate_all_indicators` computes (keyed record
instead of the source's dict; the `close_prices` entry is the input itself). -/
structure AllIndicators where
  sma50 : List (Option ℚ)
  sma200 : List (Option ℚ)
  rsi14 : List (Option ℚ)
  macd12269 : Except PyErr MacdOut
  close_prices : List ℚ
deriving Repr

/-- `Indicators.calculate_all_indicators` on the close prices of `candles`
(the empty-candles early return is handled by the caller's length guards). -/
def calculate_all_indicators (candles : List Candle) : AllIndicators :=
  let closes := candles.map (·.c)
  ⟨sma closes 50, sma closes 200, rsi closes 14, macd closes 12 26 9, closes⟩

end Indicators

/-- `app.models.MiniSignal`. -/
inductive MiniSignal where
  | bullish
  | bearish
  | neutral
deriving Repr, DecidableEq

/-- `app.models.Recommendation`. -/
inductive Recommendation where
  | buy
  | sell
  | neutral
deriving Repr, DecidableEq

/-- `SignalEngine.evaluate_timeframe` (rationale strings omitted): mini-signal
and strength contribution from the four weighted checks on the last candle.
The interval label only decorates rationale text and is not a parameter here.
On the `len ≥ 200` branch every indicator value the source reads at index
`[-1]` is defined — `n ≥ 200` exceeds every warm-up length, so the source's
`is None` check never fires there — and the last entries of the arrays that
`calculate_all_indicators` builds are the corresponding index functions at
`n-1` (see `sma_getLastD`, `rsi_getLastD` and `macd_signal_getLastD` below),
which is how they are read here. -/
def evaluate_timeframe (candles : List Candle) : MiniSignal × ℚ :=
  if candles.length < 200 then (.neutral, 0)
  else
    let closes := candles.map (·.c)
    let n := closes.length
    let close := lastD closes
    let sma50 := Indicators.windowMean closes (n - 50) 50
    let sma200 := Indicators.windowMean closes (n - 200) 200
    let rsi := Indicators.rsiAt closes 14 (n - 1)
    let macd_line := Indicators.macdLineAt closes 12 26 (n - 1)
    let macd_signal := Indicators.signalAt closes 12 26 9 (n - 1)
    let macd_hist := Indicators.histAt closes 12 26 9 (n - 1)
    let trendBull : ℤ := if sma200 < sma50 then 30 else 0
    let trendBear : ℤ := if sma50 < sma200 then 30 else 0
    let locBull : ℤ := if sma50 < close then 25 else 0
    let locBear : ℤ := if close < sma50 then 25 else 0
    let rsiBull : ℤ := if rsi < 30 then 25 else if 30 ≤ rsi ∧ rsi < 40 then 10 else 0
    let rsiBear : ℤ := if 70 < rsi then 25 else if 60 < rsi ∧ rsi ≤ 70 then 10 else 0
    let macdBull : ℤ := if macd_signal < macd_line ∧ 0 < macd_hist then 20 else 0
    let macdBear : ℤ := if macd_line < macd_signal ∧ macd_hist < 0 then 20 else 0
    let net : ℤ := (trendBull + locBull + rsiBull + macdBull) - (trendBear + locBear + rsiBear + macdBear)
    let sig : MiniSignal := if 30 < net then .bullish else if net < -30 then .bearish else .neutral
    (sig, (min 100 (max 0 |net|) : ℤ))

namespace KillZones

/-- `kill_zones.KillZoneType`. -/
inductive KillZoneType where
  | london_kill_zone
  | ny_kill_zone
  | london_close
  | asian_session
  | off_hours
deriving Repr, DecidableEq

/-- `kill_zones.SessionType`. -/
inductive SessionType where
  | pre_market
  | market_open
  | market_hours
  | market_close
  | after_hours
deriving Repr, DecidableEq

/-- Expected volatility label. -/
inductive Volatility where
  | low
  | medium
  | high
deriving Repr, DecidableEq

/-- `kill_zones.KillZoneInfo` (rationale string omitted). -/
structure KillZoneInfo where
  zone_type : KillZoneType
  is_active : Bool
  time_until_next : Option ℤ
  time_remaining : Option ℤ
  session : SessionType
  optimal_for_entries : Bool
  volatility_expected : Volatility
deriving Repr, DecidableEq

/-- EST (fixed UTC-5, as the source hardcodes) seconds-of-day of a unix
timestamp. -/
def estSod (t : ℤ) : ℤ := (t - 5 * 3600) % 86400

/-- Second-of-day of a `datetime.time(h, m)` table entry. -/
def hm (h m : ℤ) : ℤ := h * 3600 + m * 60

/-- `KillZoneDetector._is_time_in_window` on seconds-of-day: inclusive bounds,
wraparound when the window crosses midnight. -/
def is_time_in_window (cur start stop : ℤ) : Bool :=
  if start < stop then start ≤ cur ∧ cur ≤ stop
  else start ≤ cur ∨ cur ≤ stop

/-- The `KILL_ZONES` table, in dict insertion order. -/
def killZoneTable : List (KillZoneType × ℤ × ℤ) :=
  [(.london_kill_zone, hm 3 0, hm 5 0),
   (.ny_kill_zone, hm 9 30, hm 11 30),
   (.london_close, hm 11 0, hm 12 0),
   (.asian_session, hm 20 0, hm 0 0)]

/-- `KillZoneDetector._get_session_type`. -/
def get_session_type (sod : ℤ) : SessionType :=
  if sod < hm 9 30 then .pre_market
  else if sod < hm 10 0 then .market_open
  else if sod < hm 16 0 then .market_hours
  else if sod < hm 20 0 then .market_close
  else .after_hours

/-- `KillZoneDetector._get_next_kill_zone`: minutes until the next zone start
(ties broken by table order, as Python `min` keeps the first minimum). -/
def get_next_kill_zone_minutes (sod : ℤ) : ℤ :=
  let cand := killZoneTable.map fun z =>
    let diff := z.2.1 - sod
    let diff := if z.2.1 ≤ sod then diff + 86400 else diff
    diff / 60
  match cand with
  | [] => 0
  | m :: ms => ms.foldl (fun acc x => if x < acc then x else acc) m

/-- Minutes remaining in the active window (`_create_kill_zone_info`). -/
def time_remaining_in (sod start stop : ℤ) : ℤ :=
  let stop' := if stop < start then stop + 86400 else stop
  (stop' - sod) / 60

/-- Per-zone `(optimal_for_entries, volatility)` of `_create_kill_zone_info`. -/
def zone_flags : KillZoneType → Bool × Volatility
  | .london_kill_zone => (true, .high)
  | .ny_kill_zone => (true, .high)
  | .london_close => (true, .medium)
  | .asian_session => (false, .low)
  | .off_hours => (false, .low)

/-- `KillZoneDetector._create_kill_zone_info` for an active zone. -/
def active_info (z : KillZoneType) (start stop sod : ℤ) : KillZoneInfo :=
  { zone_type := z
    is_active := true
    time_until_next := none
    time_remaining := some (time_remaining_in sod start stop)
    session := get_session_type sod
    optimal_for_entries := (zone_flags z).1
    volatility_expected := (zone_flags z).2 }

/-- `_create_kill_zone_info` for off-hours. -/
def off_hours_info (sod : ℤ) : KillZoneInfo :=
  { zone_type := .off_hours
    is_active := false
    time_until_next := some (get_next_kill_zone_minutes sod)
    time_remaining := none
    session := get_session_type sod
    optimal_for_entries := false
    volatility_expected := .low }

/-- The zone-table scan of `get_current_kill_zone`: first matching window. -/
def classify_zone (sod : ℤ) : List (KillZoneType × ℤ × ℤ) → KillZoneInfo
  | [] => off_hours_info sod
  | (z, start, stop) :: rest =>
    if is_time_in_window sod start stop then active_info z start stop sod
    else classify_zone sod rest

/-- `KillZoneDetector.get_current_kill_zone`. -/
def get_current_kill_zone (t : ℤ) : KillZoneInfo :=
  classify_zone (estSod t) killZoneTable

/-- `KillZoneDetector.should_trade_signal` (the reason string is omitted; the
returned `Bool` is the decision). -/
def should_trade_signal (t : ℤ) (strength : ℚ) : Bool :=
  let info := get_current_kill_zone t
  if info.is_active ∧ 70 ≤ strength then true
  else if info.is_active ∧ info.optimal_for_entries ∧ 50 ≤ strength then true
  else if info.zone_type = .asian_session then false
  else if info.zone_type = .off_hours then
    if 80 ≤ strength then true else false
  else if info.is_active ∧ strength < 50 then false
  else true

end KillZones

namespace Phase1

/-- `ict_phase1_enhancements.KillZoneType` (the UTC-keyed table, distinct from
`kill_zones.KillZoneType`). -/
inductive P1Zone where
  | asian_session
  | london_open
  | ny_open
  | london_close
  | ny_close
  | off_hours
deriving Repr, DecidableEq

/-- `ict_phase1_enhancements.KillZoneInfo` (description string omitted;
start/end hours carried by the table, not needed downstream). -/
structure P1KillZoneInfo where
  zone_type : P1Zone
  is_active : Bool
  strength_multiplier : ℚ
deriving Repr, DecidableEq

/-- `datetime.fromtimestamp(t, utc)`: `hour + minute/60.0` (seconds dropped,
as the source reads only `.hour` and `.minute`). -/
def timeDecimal (t : ℤ) : ℚ :=
  let sod := t % 86400
  ((sod / 3600 : ℤ) : ℚ) + ((sod % 3600 / 60 : ℤ) : ℚ) / 60

/-- The Phase-1 `kill_zones` dict, in insertion order: (zone, start, end,
multiplier). -/
def p1Table : List (P1Zone × ℚ × ℚ × ℚ) :=
  [(.london_open, 7, 10, 13/10),
   (.ny_open, 12, 15, 5/4),
   (.london_close, 15, 17, 23/20),
   (.asian_session, 0, 8, 11/10),
   (.ny_close, 19, 21, 21/20)]

/-- Table scan of `get_kill_zone_info`: `start <= time_decimal < end`. -/
def p1Classify (td : ℚ) : List (P1Zone × ℚ × ℚ × ℚ) → P1KillZoneInfo
  | [] => { zone_type := .off_hours, is_active := false, strength_multiplier := 1 }
  | (z, s, e, m) :: rest =>
    if s ≤ td ∧ td < e then { zone_type := z, is_active := true, strength_multiplier := m }
    else p1Classify td rest

/-- `ICTPhase1Enhancements.get_kill_zone_info` (all three feature flags default
to `True` in `app.config.settings`, so the disabled branches are dead). -/
def get_kill_zone_info (t : ℤ) : P1KillZoneInfo :=
  p1Classify (timeDecimal t) p1Table

/-- Price location relative to the premium/discount arrays. -/
inductive PDLocation where
  | premium
  | discount
  | equity
  | unknown
deriving Repr, DecidableEq

/-- `ict_phase1_enhancements.PDArrayInfo`. -/
structure PDArrayInfo where
  premium_zone : ℚ × ℚ
  discount_zone : ℚ × ℚ
  ote_zone : ℚ × ℚ
  current_location : PDLocation
  range_size : ℚ
  optimal_entry : ℚ
  is_in_ote : Bool
  alignment_score : ℚ
deriving Repr, DecidableEq

/-- The neutral `PDArrayInfo` returned when disabled / insufficient data /
zero range. -/
def pdNeutral : PDArrayInfo :=
  { premium_zone := (0, 0), discount_zone := (0, 0), ote_zone := (0, 0)
    current_location := .unknown, range_size := 0, optimal_entry := 0
    is_in_ote := false, alignment_score := 50 }

/-- `ICTPhase1Enhancements.calculate_pd_arrays` with the default `lookback=50`. -/
def calculate_pd_arrays (candles : List Candle) (lookback : ℕ := 50) : PDArrayInfo :=
  if candles.length < lookback ∨ candles.isEmpty then pdNeutral
  else
    let recent := tailN lookback candles
    let high := maxQD (recent.map (·.h)) 0
    let low := minQD (recent.map (·.l)) 0
    let range_size := high - low
    if range_size = 0 then pdNeutral
    else
      let premium_top := high - range_size * (5/100)
      let premium_bottom := high - range_size * (50/100)
      let discount_top := low + range_size * (50/100)
      let discount_bottom := low + range_size * (5/100)
      let ote_79 := high - range_size * (79/100)
      let ote_62 := high - range_size * (62/100)
      let current_price := (lastD candles).c
      let (loc, align, entry) : PDLocation × ℚ × ℚ :=
        if premium_bottom < current_price then
          (.premium, if premium_top < current_price then 20 else 40, discount_top)
        else if current_price < discount_top then
          (.discount, if current_price < discount_bottom then 90 else 75, ote_62)
        else (.equity, 50, (ote_62 + ote_79) / 2)
      let is_in_ote := ote_79 ≤ current_price ∧ current_price ≤ ote_62
      let (align, entry) := if is_in_ote then ((95 : ℚ), current_price) else (align, entry)
      { premium_zone := (premium_bottom, premium_top)
        discount_zone := (discount_bottom, discount_top)
        ote_zone := (ote_79, ote_62)
        current_location := loc
        range_size := range_size
        optimal_entry := entry
        is_in_ote := is_in_ote
        alignment_score := align }

/-- Liquidity pool dictionaries handed from the ICT side: Python dicts keyed
`block_{timestamp}`, modeled as association lists keyed by timestamp with
dict upsert semantics (first insertion fixes the position). -/
structure LiqPools where
  buy_side : List (ℤ × ℚ)
  sell_side : List (ℤ × ℚ)
deriving Repr, DecidableEq

/-- Python dict `d[k] = v`: replace in place if present, else append. -/
def dictUpsert (k : ℤ) (v : ℚ) : List (ℤ × ℚ) → List (ℤ × ℚ)
  | [] => [(k, v)]
  | (k', v') :: rest => if k' = k then (k, v) :: rest else (k', v') :: dictUpsert k v rest

/-- Expected move direction of a detected sweep. -/
inductive SweepExpectation where
  | bullish_move
  | bearish_move
deriving Repr, DecidableEq

/-- `ict_phase1_enhancements.LiquiditySweep` (sweep_type is determined by the
expectation; reversal index kept as in the source). -/
structure LiquiditySweep where
  pool_level : ℚ
  sweep_timestamp : ℤ
  expectation : SweepExpectation
  strength : ℚ
  is_confirmed : Bool
  reversal_candle_index : ℕ
deriving Repr, DecidableEq

/-- Sweeps one candle contributes (`detect_liquidity_sweeps` loop body):
buy-side pools scanned first, then sell-side, in dict order. -/
def candleSweeps (pools : LiqPools) (avg_volume : ℚ) (prevClose? : Option ℚ)
    (idx : ℕ) (candle : Candle) : List LiquiditySweep :=
  let buy := pools.buy_side.filterMap fun (_, level) =>
    if level * (1001/1000) ≤ candle.h then
      let rev : Bool :=
        decide (candle.c < candle.o) || (match prevClose? with | some pc => decide (candle.c < pc) | none => false)
      if rev then
        some { pool_level := level, sweep_timestamp := candle.t, expectation := .bearish_move
               strength := min 95 (75 + if avg_volume < candle.v then 20 else 0)
               is_confirmed := true, reversal_candle_index := idx }
      else none
    else none
  let sell := pools.sell_side.filterMap fun (_, level) =>
    if candle.l ≤ level * (999/1000) then
      let rev : Bool :=
        decide (candle.o < candle.c) || (match prevClose? with | some pc => decide (pc < candle.c) | none => false)
      if rev then
        some { pool_level := level, sweep_timestamp := candle.t, expectation := .bullish_move
               strength := min 95 (75 + if avg_volume < candle.v then 20 else 0)
               is_confirmed := true, reversal_candle_index := idx }
      else none
    else none
  buy ++ sell

/-- The `enumerate(recent_candles)` loop of `detect_liquidity_sweeps`,
carrying the running index and the previous candle's close. -/
def sweepScan (pools : LiqPools) (avg_volume : ℚ) :
    ℕ → Option ℚ → List Candle → List LiquiditySweep
  | _, _, [] => []
  | i, pc, c :: rest =>
    candleSweeps pools avg_volume pc i c ++ sweepScan pools avg_volume (i + 1) (some c.c) rest

/-- `ICTPhase1Enhancements.detect_liquidity_sweeps` with default `lookback=10`. -/
def detect_liquidity_sweeps (candles : List Candle) (pools : LiqPools)
    (lookback : ℕ := 10) : List LiquiditySweep :=
  if candles.isEmpty ∨ candles.length < lookback then []
  else
    let recent := tailN lookback candles
    let avg_volume := if recent.isEmpty then 0 else pyMean (recent.map (·.v))
    sweepScan pools avg_volume (candles.length - recent.length) none recent

/-- `ICTPhase1Enhancements.calculate_phase1_enhancement` (rationale strings
omitted): kill-zone bonus + PD-array alignment bonus + strongest aligned
liquidity-sweep bonus, capped at 40. -/
def calculate_phase1_enhancement (candles : List Candle) (pools : LiqPools)
    (recommendation : Recommendation) : ℚ :=
  if candles.isEmpty then 0
  else
    let current_timestamp := (lastD candles).t
    let kz := get_kill_zone_info current_timestamp
    let kzBonus := if kz.is_active then (kz.strength_multiplier - 1) * 100 else 0
    let pd := calculate_pd_arrays candles
    let pdBonus : ℚ :=
      if recommendation = .buy ∧ pd.current_location = .discount then
        if pd.is_in_ote then 20 else 15
      else if recommendation = .sell ∧ pd.current_location = .premium then 15
      else 0
    let sweeps := (detect_liquidity_sweeps candles pools).filter (·.is_confirmed)
    let aligned := sweeps.filter fun s =>
      (recommendation = .buy ∧ s.expectation = .bullish_move) ∨
      (recommendation = .sell ∧ s.expectation = .bearish_move)
    let sweepBonus : ℚ :=
      match aligned with
      | [] => 0
      | s :: rest =>
        let best := rest.foldl (fun acc x => if acc.strength < x.strength then x else acc) s
        best.strength / 100 * 25
    min (kzBonus + pdBonus + sweepBonus) 40

end Phase1

/-- `ict_strategies.ICTSignal` enum. -/
inductive ICTSignal where
  | bullish_breaker
  | bearish_breaker
  | fvg_bullish
  | fvg_bearish
  | mm_buy_model
  | mm_sell_model
  | bos_bullish
  | bos_bearish
  | mss_bullish
  | mss_bearish
  | neutral
deriving Repr, DecidableEq

/-- `smc_strategies.SMCSignal` enum. -/
inductive SMCSignal where
  | liquidity_sweep_bullish
  | liquidity_sweep_bearish
  | inducement_bullish
  | inducement_bearish
  | mitigation_bullish
  | mitigation_bearish
  | bpr_bullish
  | bpr_bearish
  | neutral
deriving Repr, DecidableEq

/-- Direction tag (`'bullish'`/`'bearish'` strings in the source). -/
inductive Direction where
  | bullish
  | bearish
deriving Repr, DecidableEq

/-- Market phase labels attached to ICT results. -/
inductive MarketPhase where
  | smart_money_reversal
  | accumulation_to_distribution
  | distribution_to_accumulation
deriving Repr, DecidableEq

/-- `ict_strategies.ICTSignalResult` (rationale strings omitted). -/
structure ICTSignalResult where
  signal_type : ICTSignal
  strength : ℚ
  confidence : ℚ
  price : ℚ
  entry_zone : ℚ × ℚ
  stop_loss : ℚ
  take_profit : ℚ
  market_phase : Option MarketPhase := none
  liquidity_pool : Option ℚ := none
deriving Repr, DecidableEq

/-- `smc_strategies.SMCSignalResult` (rationale strings omitted). -/
structure SMCSignalResult where
  signal_type : SMCSignal
  strength : ℚ
  confidence : ℚ
  price : ℚ
  entry_zone : ℚ × ℚ
  stop_loss : ℚ
  take_profit : ℚ
  liquidity_target : Option ℚ := none
  confluence_ict : Bool := false
deriving Repr, DecidableEq

namespace AI

/-- `ai_enhancer.MarketRegime`. -/
inductive MarketRegime where
  | strong_trend_up
  | trend_up
  | ranging
  | trend_down
  | strong_trend_down
  | volatile
  | unknown
deriving Repr, DecidableEq

/-- `ai_enhancer.SignalQuality`. -/
inductive SignalQuality where
  | excellent
  | good
  | moderate
  | poor
  | reject
deriving Repr, DecidableEq

/-- The `pattern_type` string handed to the AI enhancer: an ICT or SMC signal
value, or the literal `"neutral"`. -/
inductive PatternTag where
  | ict : ICTSignal → PatternTag
  | smc : SMCSignal → PatternTag
  | neutral
deriving Repr, DecidableEq

/-- Whether any entry of `bullish_patterns` is a substring of the pattern
string (`_calculate_regime_alignment`); the enum value strings match only their
own list entry, so this is membership. Note `mm_buy_model` is in the bullish
list. -/
def PatternTag.isBullish : PatternTag → Bool
  | .ict .bullish_breaker => true
  | .ict .fvg_bullish => true
  | .ict .mm_buy_model => true
  | .ict .bos_bullish => true
  | .ict .mss_bullish => true
  | .smc .liquidity_sweep_bullish => true
  | .smc .inducement_bullish => true
  | .smc .mitigation_bullish => true
  | .smc .bpr_bullish => true
  | _ => false

/-- Mirror of `isBullish` for the `bearish_patterns` list. -/
def PatternTag.isBearish : PatternTag → Bool
  | .ict .bearish_breaker => true
  | .ict .fvg_bearish => true
  | .ict .mm_sell_model => true
  | .ict .bos_bearish => true
  | .ict .mss_bearish => true
  | .smc .liquidity_sweep_bearish => true
  | .smc .inducement_bearish => true
  | .smc .mitigation_bearish => true
  | .smc .bpr_bearish => true
  | _ => false

/-- `'breaker' in pattern_lower`. -/
def PatternTag.hasBreaker : PatternTag → Bool
  | .ict .bullish_breaker => true
  | .ict .bearish_breaker => true
  | _ => false

/-- `'mitigation' in pattern_lower`. -/
def PatternTag.hasMitigation : PatternTag → Bool
  | .smc .mitigation_bullish => true
  | .smc .mitigation_bearish => true
  | _ => false

/-- `ai_enhancer.AIConfidenceScore` (rationale / recommendation strings
omitted). -/
structure AIConfidenceScore where
  success_probability : ℚ
  quality_rating : SignalQuality
  market_regime : MarketRegime
  regime_alignment_score : ℚ
  false_signal_risk : ℚ
  confluence_bonus : ℚ
  adjusted_strength : ℚ
deriving Repr, DecidableEq

/-- Least-squares slope of `np.polyfit(arange(n), ys, 1)` (exact normal
equation for degree one). -/
def polyfitSlope (ys : List ℚ) : ℚ :=
  let n : ℚ := ys.length
  let xs := (List.range ys.length).map fun i => (i : ℚ)
  let sx := pySum xs
  let sy := pySum ys
  let sxy := pySum ((xs.zip ys).map fun p => p.1 * p.2)
  let sxx := pySum (xs.map fun x => x * x)
  (n * sxy - sx * sy) / (n * sxx - sx * sx)

/-- `AIEnhancer._classify_market_regime`. The source compares
`std(recent)/mean*100 > std(all)/mean*100 * 1.5`; with the positive mean both
sides carry, this is `std(recent) > 1.5*std(all)`, embedded as the equivalent
exact variance comparison `4*var(recent) > 9*var(all)`. -/
def classify_market_regime (candles : List Candle) : MarketRegime :=
  if candles.length < 20 then .unknown
  else
    let closes := candles.map (·.c)
    let highs := candles.map (·.h)
    let lows := candles.map (·.l)
    let n := closes.length
    let meanClose := pyMean closes
    let slope_normalized := polyfitSlope closes / meanClose * 100
    let ranges := List.zipWith (fun h l => h - l) highs lows
    let volatile := 4 * varPop (tailN 10 ranges) > 9 * varPop ranges
    let directional_movement := |lastD closes - closes.getD (n - 10) 0| / meanClose * 100
    let recent_high := maxQD (tailN 20 highs) 0
    let recent_low := minQD (tailN 20 lows) 0
    let price_range := (recent_high - recent_low) / recent_low * 100
    if volatile then .volatile
    else if |slope_normalized| < 1/10 ∧ price_range < 3 then .ranging
    else if 3/10 < slope_normalized ∧ 2 < directional_movement then .strong_trend_up
    else if 1/10 < slope_normalized then .trend_up
    else if slope_normalized < -(3/10) ∧ 2 < directional_movement then .strong_trend_down
    else if slope_normalized < -(1/10) then .trend_down
    else .ranging

/-- `AIEnhancer._calculate_regime_alignment`. -/
def calculate_regime_alignment (pattern : PatternTag) (regime : MarketRegime)
    (signal_strength : ℚ) : ℚ :=
  let base : ℚ :=
    match regime with
    | .strong_trend_up | .trend_up =>
      if pattern.isBullish then (if regime = .strong_trend_up then 85 else 75)
      else if pattern.isBearish then 25
      else 50
    | .strong_trend_down | .trend_down =>
      if pattern.isBearish then (if regime = .strong_trend_down then 85 else 75)
      else if pattern.isBullish then 25
      else 50
    | .ranging => if pattern.hasBreaker || pattern.hasMitigation then 80 else 60
    | .volatile => 40
    | .unknown => 50
  let adjusted := base * (1/2 + signal_strength / 200)
  min 100 (max 0 adjusted)

/-- Direction comparisons of the choppy-market check: `1 if closes[-i] >
closes[-(i+1)] else -1` for `i = 1..9`, i.e. over consecutive pairs from
the end. -/
def directionList (closes : List ℚ) : List ℤ :=
  let rev := closes.reverse
  ((rev.zip (rev.drop 1)).take 9).map fun p => if p.2 < p.1 then 1 else -1

/-- The direction-change count with `prev_direction` starting at 0. -/
def countChanges : ℤ → List ℤ → ℕ
  | _, [] => 0
  | prev, d :: rest => (if prev ≠ 0 ∧ d ≠ prev then 1 else 0) + countChanges d rest

/-- `AIEnhancer._calculate_false_signal_risk`. Raises `KeyError` on an empty
candle list (an empty `pd.DataFrame` has no `'volume'` column). -/
def calculate_false_signal_risk (candles : List Candle) (regime : MarketRegime) :
    Except PyErr ℚ :=
  if candles.isEmpty then .error .keyError
  else
    let vols := candles.map (·.v)
    let closes := candles.map (·.c)
    let r1 : ℚ := if pyMean (tailN 5 vols) < pyMean vols * (1/2) then 20 else 0
    let r2 : ℚ :=
      if 10 ≤ closes.length then
        if 4 ≤ countChanges 0 (directionList closes) then 25 else 0
      else 0
    let spreads := candles.map fun c => (c.h - c.l) / c.c
    let r3 : ℚ := if pyMean spreads * (3/2) < pyMean (tailN 3 spreads) then 15 else 0
    let r4 : ℚ := if regime = .volatile then 20 else 0
    .ok (min 100 (r1 + r2 + r3 + r4))

/-- `str(s.signal_type).lower()` contains `'bullish'`: enum member names that
carry the word. Note `MM_BUY_MODEL` does not. -/
def ictNameHasBullish : ICTSignal → Bool
  | .bullish_breaker | .fvg_bullish | .bos_bullish | .mss_bullish => true
  | _ => false

/-- `str(s.signal_type).lower()` contains `'bearish'`; `MM_SELL_MODEL` does not. -/
def ictNameHasBearish : ICTSignal → Bool
  | .bearish_breaker | .fvg_bearish | .bos_bearish | .mss_bearish => true
  | _ => false

/-- Name-based bullish check for SMC signal types. -/
def smcNameHasBullish : SMCSignal → Bool
  | .liquidity_sweep_bullish | .inducement_bullish | .mitigation_bullish | .bpr_bullish => true
  | _ => false

/-- Name-based bearish check for SMC signal types. -/
def smcNameHasBearish : SMCSignal → Bool
  | .liquidity_sweep_bearish | .inducement_bearish | .mitigation_bearish | .bpr_bearish => true
  | _ => false

/-- `AIEnhancer._calculate_confluence_bonus`. -/
def calculate_confluence_bonus (ict : List ICTSignalResult) (smc : List SMCSignalResult) : ℚ :=
  if ict.isEmpty ∨ smc.isEmpty then 0
  else
    let ictBull := ict.any fun s => ictNameHasBullish s.signal_type
    let ictBear := ict.any fun s => ictNameHasBearish s.signal_type
    let smcBull := smc.any fun s => smcNameHasBullish s.signal_type
    let smcBear := smc.any fun s => smcNameHasBearish s.signal_type
    let b1 : ℚ :=
      if ictBull ∧ smcBull then 12
      else if ictBear ∧ smcBear then 12
      else if (ictBull ∧ smcBear) ∨ (ictBear ∧ smcBull) then -5
      else 0
    let b2 : ℚ := if 2 ≤ ict.length ∧ 1 ≤ smc.length then 5 else 0
    max 0 (min 20 (b1 + b2))

/-- `AIEnhancer._calculate_success_probability`. -/
def calculate_success_probability (base_confidence historical_win_rate regime_alignment
    false_signal_risk confluence_bonus : ℚ) : ℚ :=
  let probability :=
    base_confidence * (3/10) + historical_win_rate * (1/4) + regime_alignment * (1/4) +
      (100 - false_signal_risk) * (1/5)
  min 100 (max 0 (probability + confluence_bonus))

/-- `AIEnhancer._determine_quality_rating`. -/
def determine_quality_rating (p : ℚ) : SignalQuality :=
  if 90 ≤ p then .excellent
  else if 75 ≤ p then .good
  else if 50 ≤ p then .moderate
  else if 25 ≤ p then .poor
  else .reject

/-- `AIEnhancer.enhance_signal`. The pattern-performance database is empty on a
fresh enhancer and nothing in the engine ever calls
`update_pattern_performance`, so `historical_win_rate` is the 50.0 default. -/
def enhance_signal (candles : List Candle) (pattern : PatternTag)
    (base_strength base_confidence : ℚ) (ict : List ICTSignalResult)
    (smc : List SMCSignalResult) : Except PyErr AIConfidenceScore :=
  let regime := classify_market_regime candles
  let regime_alignment := calculate_regime_alignment pattern regime base_strength
  match calculate_false_signal_risk candles regime with
  | .error e => .error e
  | .ok false_signal_risk =>
    let confluence_bonus := calculate_confluence_bonus ict smc
    let success_prob :=
      calculate_success_probability base_confidence 50 regime_alignment false_signal_risk
        confluence_bonus
    .ok { success_probability := success_prob
          quality_rating := determine_quality_rating success_prob
          market_regime := regime
          regime_alignment_score := regime_alignment
          false_signal_risk := false_signal_risk
          confluence_bonus := confluence_bonus
          adjusted_strength := min 100 (base_strength + confluence_bonus) }

end AI

/-- Stable descending insertion by a rational key: an element is placed after
every element whose key is ≥ its own, which is exactly Python's stable
`sorted(..., reverse=True)` order when built by `stableSortDescBy`. -/
def insertDescBy (key : α → ℚ) (x : α) : List α → List α
  | [] => [x]
  | h :: t => if key x ≤ key h then h :: insertDescBy key x t else x :: h :: t

/-- Python `sorted(signals, key=lambda x: x.strength*x.confidence, reverse=True)`
(stable). -/
def stableSortDescBy (key : α → ℚ) (l : List α) : List α :=
  l.foldl (fun acc x => insertDescBy key x acc) []

/-- The dedup-and-cap loop of `_rank_and_filter_signals`: keep the first
occurrence of each signal type, at most three results. -/
def dedupTop3By [DecidableEq β] (key : α → β) : List α → List β → ℕ → List α
  | [], _, _ => []
  | x :: rest, seen, k =>
    if key x ∉ seen ∧ k < 3 then x :: dedupTop3By key rest (key x :: seen) (k + 1)
    else dedupTop3By key rest seen k

namespace ICT

/-- `ict_strategies.OrderBlock`. -/
structure OrderBlock where
  high : ℚ
  low : ℚ
  timestamp : ℤ
  type : Direction
  confirmed : Bool := false
  broken : Bool := false
  breaker_confirmed : Bool := false
deriving Repr, DecidableEq

/-- `ict_strategies.FairValueGap`. -/
structure FairValueGap where
  high : ℚ
  low : ℚ
  start_timestamp : ℤ
  end_timestamp : ℤ
  direction : Direction
  filled : Bool := false
  fill_price : Option ℚ := none
deriving Repr, DecidableEq

/-- Trend label of `MarketStructure`. -/
inductive Trend where
  | bullish
  | bearish
  | neutral
deriving Repr, DecidableEq

/-- `ict_strategies.MarketStructure`. -/
structure MarketStructure where
  trend : Trend
  last_swing_high : ℚ
  last_swing_low : ℚ
  swing_high_timestamp : ℤ
  swing_low_timestamp : ℤ
  bos_confirmed : Bool := false
  bos_direction : Option Direction := none
  mss_confirmed : Bool := false
  mss_direction : Option Direction := none
deriving Repr, DecidableEq

/-- `ICTStrategies._initialize_market_structure`. -/
def MarketStructure.init : MarketStructure :=
  { trend := .neutral, last_swing_high := 0, last_swing_low := 0
    swing_high_timestamp := 0, swing_low_timestamp := 0 }

/-- The mutable instance state of `ICTStrategies`. -/
structure ICTState where
  order_blocks : List OrderBlock
  fair_value_gaps : List FairValueGap
  market_structure : MarketStructure
deriving Repr, DecidableEq

/-- `ICTStrategies.__init__`. -/
def ICTState.init : ICTState := ⟨[], [], .init⟩

/-- `ICTStrategies._detect_order_blocks`: the blocks one call appends, scanning
consecutive pairs of the last 20 candles; a close-over-close move of -2% makes
a bearish block from the previous candle's range, +2% a bullish one. -/
def newOrderBlocks (candles : List Candle) : List OrderBlock :=
  let recent := tailN 20 candles
  (recent.zip (recent.drop 1)).filterMap fun p =>
    if p.2.c < p.1.c * (98/100) then
      some { high := p.1.h, low := p.1.l, timestamp := p.2.t, type := .bearish }
    else if p.1.c * (102/100) < p.2.c then
      some { high := p.1.h, low := p.1.l, timestamp := p.2.t, type := .bullish }
    else none

/-- `ICTStrategies._detect_fair_value_gaps`: three-candle scan over the whole
series. -/
def fvgScan : List Candle → List FairValueGap
  | p2 :: p1 :: cur :: rest =>
    (if p2.l * (1001/1000) < cur.l then
      [{ high := cur.l, low := p2.l, start_timestamp := p2.t, end_timestamp := cur.t,
         direction := .bullish }]
     else if cur.h < p2.h * (999/1000) then
      [{ high := p2.h, low := cur.h, start_timestamp := p2.t, end_timestamp := cur.t,
         direction := .bearish }]
     else []) ++ fvgScan (p1 :: cur :: rest)
  | _ => []

/-- Highs of the bearish order blocks (the argument of `max` in
`_check_bullish_bos`). -/
def maxBearHigh (obs : List OrderBlock) : Option ℚ :=
  maxQ? ((obs.filter fun b => b.type = .bearish).map (·.high))

/-- Lows of the bullish order blocks (the argument of `min` in
`_check_bearish_bos`). -/
def minBullLow (obs : List OrderBlock) : Option ℚ :=
  minQ? ((obs.filter fun b => b.type = .bullish).map (·.low))

/-- `ICTStrategies._check_bullish_bos`. When `order_blocks` is nonempty but
holds no bearish block, the source's `max([...])` raises `ValueError`. -/
def check_bullish_bos (obs : List OrderBlock) (lastSwingHigh : ℚ) : Except PyErr Bool :=
  if obs.isEmpty then .ok false
  else
    match maxBearHigh obs with
    | none => .error .valueError
    | some m => .ok (m * (1001/1000) < lastSwingHigh)

/-- `ICTStrategies._check_bearish_bos`; `min([])` raises when no bullish block
exists while `order_blocks` is nonempty. -/
def check_bearish_bos (obs : List OrderBlock) (lastSwingLow : ℚ) : Except PyErr Bool :=
  if obs.isEmpty then .ok false
  else
    match minBullLow obs with
    | none => .error .valueError
    | some m => .ok (lastSwingLow < m * (999/1000))

/-- Swing-high test at window index `i`: the candle's high is ≥ every high in
the ±2-candle window. -/
def swingHighAt (recent : List Candle) (i : ℕ) : Bool :=
  (List.range 5).all fun k => (recent.getD (i - 2 + k) default).h ≤ (recent.getD i default).h

/-- Swing-low test at window index `i`. -/
def swingLowAt (recent : List Candle) (i : ℕ) : Bool :=
  (List.range 5).all fun k => (recent.getD i default).l ≤ (recent.getD (i - 2 + k) default).l

/-- The `BOS_BULLISH` result emitted by `_analyze_market_structure`. -/
def bosBullishResult (cur : Candle) : ICTSignalResult :=
  { signal_type := .bos_bullish, strength := 75, confidence := 80, price := cur.h
    entry_zone := (cur.l, cur.h), stop_loss := cur.l * (995/1000)
    take_profit := cur.h * (102/100), liquidity_pool := some cur.h }

/-- The `BOS_BEARISH` result emitted by `_analyze_market_structure`. -/
def bosBearishResult (cur : Candle) : ICTSignalResult :=
  { signal_type := .bos_bearish, strength := 75, confidence := 80, price := cur.l
    entry_zone := (cur.l, cur.h), stop_loss := cur.h * (1005/1000)
    take_profit := cur.l * (98/100), liquidity_pool := some cur.l }

/-- One iteration of the swing loop in `_analyze_market_structure`. -/
def msStep (obs : List OrderBlock) (recent : List Candle) (i : ℕ) (ms : MarketStructure) :
    Except PyErr (List ICTSignalResult × MarketStructure) :=
  let cur := recent.getD i default
  if swingHighAt recent i then
    let ms1 := { ms with last_swing_high := cur.h, swing_high_timestamp := cur.t }
    match check_bullish_bos obs ms1.last_swing_high with
    | .error e => .error e
    | .ok true =>
      .ok ([bosBullishResult cur], { ms1 with bos_confirmed := true, bos_direction := some .bullish })
    | .ok false => .ok ([], ms1)
  else if swingLowAt recent i then
    let ms1 := { ms with last_swing_low := cur.l, swing_low_timestamp := cur.t }
    match check_bearish_bos obs ms1.last_swing_low with
    | .error e => .error e
    | .ok true =>
      .ok ([bosBearishResult cur], { ms1 with bos_confirmed := true, bos_direction := some .bearish })
    | .ok false => .ok ([], ms1)
  else .ok ([], ms)

/-- The index loop of `_analyze_market_structure`. -/
def msScanGo (obs : List OrderBlock) (recent : List Candle) :
    List ℕ → MarketStructure → Except PyErr (List ICTSignalResult × MarketStructure)
  | [], ms => .ok ([], ms)
  | i :: rest, ms =>
    match msStep obs recent i ms with
    | .error e => .error e
    | .ok (emit, ms1) =>
      match msScanGo obs recent rest ms1 with
      | .error e => .error e
      | .ok (rs, msf) => .ok (emit ++ rs, msf)

/-- `ICTStrategies._analyze_market_structure`: scans `i ∈ [2, len-3]` of the
last ten candles. -/
def analyze_market_structure (candles : List Candle) (obs : List OrderBlock)
    (ms : MarketStructure) : Except PyErr (List ICTSignalResult × MarketStructure) :=
  if candles.length < 10 then .ok ([], ms)
  else
    let recent := tailN 10 candles
    msScanGo obs recent ((List.range (recent.length - 4)).map (· + 2)) ms

/-- The in-place mutation of one order block in `_detect_breaker_blocks`. -/
def breakerMark (price : ℚ) (b : OrderBlock) : OrderBlock :=
  if !b.broken ∧ ((b.type = .bearish ∧ b.high < price) ∨ (b.type = .bullish ∧ price < b.low)) then
    { b with broken := true, breaker_confirmed := true }
  else b

/-- The signal one order block contributes in `_detect_breaker_blocks`. -/
def breakerSignal (price : ℚ) (b : OrderBlock) : Option ICTSignalResult :=
  if b.broken then none
  else if b.type = .bearish ∧ b.high < price then
    some { signal_type := .bullish_breaker, strength := 85, confidence := 90, price := price
           entry_zone := (b.low, b.high), stop_loss := b.low * (997/1000)
           take_profit := b.high * (103/100), market_phase := some .smart_money_reversal }
  else if b.type = .bullish ∧ price < b.low then
    some { signal_type := .bearish_breaker, strength := 85, confidence := 90, price := price
           entry_zone := (b.low, b.high), stop_loss := b.high * (1003/1000)
           take_profit := b.low * (97/100), market_phase := some .smart_money_reversal }
  else none

/-- `ICTStrategies._detect_breaker_blocks`: scans `order_blocks[-10:]` against
the last close of the recent candles, mutating the scanned blocks in place. -/
def detect_breaker_blocks (obs : List OrderBlock) (recent : List Candle) :
    List OrderBlock × List ICTSignalResult :=
  if recent.length < 3 then (obs, [])
  else
    let price := (lastD recent).c
    let front := obs.take (obs.length - 10)
    let window := obs.drop (obs.length - 10)
    (front ++ window.map (breakerMark price), window.filterMap (breakerSignal price))

/-- Higher-lows check of `_detect_market_maker_buy_model` (0.05% tolerance on
the last five lows). -/
def higherLows (recent30 : List Candle) : Bool :=
  let ls := tailN 5 (recent30.map (·.l))
  (ls.zip (ls.drop 1)).all fun p => p.1 * (9995/10000) ≤ p.2

/-- Lower-highs check of `_detect_market_maker_sell_model`. -/
def lowerHighs (recent30 : List Candle) : Bool :=
  let hs := tailN 5 (recent30.map (·.h))
  (hs.zip (hs.drop 1)).all fun p => p.2 ≤ p.1 * (10005/10000)

/-- `ICTStrategies._detect_market_maker_buy_model`. -/
def detectMMBuy (recent30 : List Candle) : Bool :=
  higherLows recent30 ∧ maxQD (tailN 10 (recent30.map (·.h))) 0 * (998/1000) < (lastD recent30).c

/-- `ICTStrategies._detect_market_maker_sell_model`. -/
def detectMMSell (recent30 : List Candle) : Bool :=
  lowerHighs recent30 ∧ (lastD recent30).c < minQD (tailN 10 (recent30.map (·.l))) 0 * (1002/1000)

/-- `ICTStrategies._analyze_market_maker_model` over the last 30 candles. -/
def mmScan (candles : List Candle) : List ICTSignalResult :=
  if candles.length < 30 then []
  else
    let recent := tailN 30 candles
    let current_price := (lastD recent).c
    let avg_price := pyMean (recent.map (·.c))
    if detectMMBuy recent then
      [{ signal_type := .mm_buy_model, strength := 90, confidence := 85, price := current_price
         entry_zone := (avg_price * (99/100), avg_price)
         stop_loss := minQD (recent.map (·.l)) 0 * (997/1000)
         take_profit := avg_price * (105/100)
         market_phase := some .accumulation_to_distribution }]
    else if detectMMSell recent then
      [{ signal_type := .mm_sell_model, strength := 90, confidence := 85, price := current_price
         entry_zone := (avg_price, avg_price * (101/100))
         stop_loss := maxQD (recent.map (·.h)) 0 * (1003/1000)
         take_profit := avg_price * (95/100)
         market_phase := some .distribution_to_accumulation }]
    else []

/-- `ICTStrategies._rank_and_filter_signals`. -/
def rank_and_filter (signals : List ICTSignalResult) : List ICTSignalResult :=
  if signals.isEmpty then []
  else dedupTop3By (·.signal_type) (stableSortDescBy (fun x => x.strength * x.confidence) signals) [] 0

/-- `ICTStrategies.analyze_candles`: order-block detection, FVG detection,
market-structure/BOS scan, breaker scan on the last 20 candles, market-maker
scan, then ranking. State is threaded explicitly. -/
def analyze_candles (s : ICTState) (candles : List Candle) :
    Except PyErr (ICTState × List ICTSignalResult) :=
  if candles.length < 50 then .ok (s, [])
  else
    let obs1 := s.order_blocks ++ newOrderBlocks candles
    let fvgs1 := s.fair_value_gaps ++ fvgScan candles
    match analyze_market_structure candles obs1 s.market_structure with
    | .error e => .error e
    | .ok (bosResults, ms1) =>
      let br := detect_breaker_blocks obs1 (tailN 20 candles)
      let mmResults := mmScan candles
      .ok ({ order_blocks := br.1, fair_value_gaps := fvgs1, market_structure := ms1 },
           rank_and_filter (bosResults ++ br.2 ++ mmResults))

/-- `ICTStrategies.get_liquidity_pools` (the `current_price` parameter is
unused by the source's body): bearish block highs as buy-side levels, bullish
block lows as sell-side, keyed by block timestamp with dict-upsert semantics. -/
def get_liquidity_pools (obs : List OrderBlock) : Phase1.LiqPools :=
  { buy_side :=
      obs.foldl (fun acc b => if b.type = .bearish then Phase1.dictUpsert b.timestamp b.high acc else acc) []
    sell_side :=
      obs.foldl (fun acc b => if b.type = .bullish then Phase1.dictUpsert b.timestamp b.low acc else acc) [] }

end ICT

namespace SMC

/-- Pool side (`'buy_side'` / `'sell_side'` strings). -/
inductive PoolSide where
  | buy_side
  | sell_side
deriving Repr, DecidableEq

/-- `smc_strategies.LiquidityPool`. -/
structure LiquidityPool where
  price_level : ℚ
  type : PoolSide
  timestamp : ℤ
  sweep_count : ℕ := 0
  swept : Bool := false
  sweep_timestamp : Option ℤ := none
  subsequent_rejection : Bool := false
deriving Repr, DecidableEq

/-- Original zone kind of a `MitigationZone` (`'order_block'`/`'fvg'`/`'breaker'`). -/
inductive MitKind where
  | order_block
  | fvg
  | breaker
deriving Repr, DecidableEq

/-- `smc_strategies.MitigationZone`; `signal_generated` models the dynamic
attribute the source probes with `hasattr`. -/
structure MitigationZone where
  original_type : MitKind
  zone_high : ℚ
  zone_low : ℚ
  fill_price : ℚ
  timestamp : ℤ
  direction : Direction
  subsequent_rejection : Bool := false
  signal_generated : Bool := false
deriving Repr, DecidableEq

/-- `smc_strategies.BalancedPriceRange`. -/
structure BalancedPriceRange where
  high : ℚ
  low : ℚ
  start_timestamp : ℤ
  end_timestamp : ℤ
  equilibrium_price : ℚ
  confirmed : Bool := false
  breakout_direction : Option Direction := none
deriving Repr, DecidableEq

/-- The mutable instance state of `SMCStrategies`. `inducements` is omitted:
the source only appends to it on the code path that raises `NameError`
immediately afterwards, so it is never observable; `price_history` and the
`_recent_swings_*` lists are written nowhere and read nowhere. -/
structure SMCState where
  liquidity_pools : List LiquidityPool
  mitigation_zones : List MitigationZone
  bpr_zones : List BalancedPriceRange
deriving Repr, DecidableEq

/-- `SMCStrategies.__init__`. -/
def SMCState.init : SMCState := ⟨[], [], []⟩

/-- The ordered `i < j` index pairs of the nested loops in
`_detect_liquidity_pools`. -/
def pairIdx (n : ℕ) : List (ℕ × ℕ) :=
  (List.range n).flatMap fun i => (List.range (n - i - 1)).map fun d => (i, i + d + 1)

/-- One equal-highs candidate of `_detect_liquidity_pools`: 0.1% tolerance,
dedup against the pools accumulated so far (the source checks
`self.liquidity_pools` as it grows). -/
def addBuyPool (recent : List Candle) (pools : List LiquidityPool) (ij : ℕ × ℕ) :
    List LiquidityPool :=
  let hi := (recent.getD ij.1 default).h
  let hj := (recent.getD ij.2 default).h
  if |hi - hj| / hi < 1/1000 then
    if pools.any (fun p => p.type = .buy_side ∧ |p.price_level - hi| / hi < 1/1000) then pools
    else pools ++ [{ price_level := hi, type := .buy_side, timestamp := (recent.getD ij.2 default).t }]
  else pools

/-- One equal-lows candidate (`sell_side`). -/
def addSellPool (recent : List Candle) (pools : List LiquidityPool) (ij : ℕ × ℕ) :
    List LiquidityPool :=
  let li := (recent.getD ij.1 default).l
  let lj := (recent.getD ij.2 default).l
  if |li - lj| / li < 1/1000 then
    if pools.any (fun p => p.type = .sell_side ∧ |p.price_level - li| / li < 1/1000) then pools
    else pools ++ [{ price_level := li, type := .sell_side, timestamp := (recent.getD ij.2 default).t }]
  else pools

/-- `SMCStrategies._detect_liquidity_pools` over the last 20 candles: equal
highs first, then equal lows. -/
def detect_liquidity_pools (pools : List LiquidityPool) (candles : List Candle) :
    List LiquidityPool :=
  if candles.length < 20 then pools
  else
    let recent := tailN 20 candles
    let pools1 := (pairIdx recent.length).foldl (addBuyPool recent) pools
    (pairIdx recent.length).foldl (addSellPool recent) pools1

/-- What `_detect_liquidity_sweeps` does to one pool: the `(updated pool,
emitted signal)` pair. -/
def sweepPool (candles : List Candle) (cur : ℚ) (p : LiquidityPool) :
    LiquidityPool × Option SMCSignalResult :=
  if p.swept then (p, none)
  else
    match p.type with
    | .buy_side =>
      let violation := (tailN 5 (candles.map (·.h))).any fun h => p.price_level * (1001/1000) < h
      if violation ∧ cur < p.price_level then
        let recent_low := minQD (tailN 10 (candles.map (·.l))) 0
        ({ p with swept := true, sweep_timestamp := some (lastD candles).t,
                  subsequent_rejection := true },
         some { signal_type := .liquidity_sweep_bearish, strength := 85, confidence := 80
                price := cur, entry_zone := (cur * (998/1000), cur * (1002/1000))
                stop_loss := p.price_level * (1005/1000)
                take_profit := p.price_level + (p.price_level - recent_low) * (3/2)
                liquidity_target := some recent_low })
      else (p, none)
    | .sell_side =>
      let violation := (tailN 5 (candles.map (·.l))).any fun l => l < p.price_level * (999/1000)
      if violation ∧ p.price_level < cur then
        let recent_high := maxQD (tailN 10 (candles.map (·.h))) 0
        ({ p with swept := true, sweep_timestamp := some (lastD candles).t,
                  subsequent_rejection := true },
         some { signal_type := .liquidity_sweep_bullish, strength := 85, confidence := 80
                price := cur, entry_zone := (cur * (998/1000), cur * (1002/1000))
                stop_loss := p.price_level * (995/1000)
                take_profit := p.price_level - (recent_high - p.price_level) * (3/2)
                liquidity_target := some recent_high })
      else (p, none)

/-- `SMCStrategies._detect_liquidity_sweeps`: every pool is examined in list
order, updated in place, and contributes at most one signal. -/
def detect_liquidity_sweeps (pools : List LiquidityPool) (candles : List Candle) (cur : ℚ) :
    List LiquidityPool × List SMCSignalResult :=
  ((pools.map (sweepPool candles cur)).map Prod.fst,
   (pools.map (sweepPool candles cur)).filterMap Prod.snd)

/-- Whether a candle triggers either inducement branch of
`_detect_inducements`: wick more than twice the body, close on the opposite
side. -/
def wickFires (c : Candle) : Bool :=
  let body := |c.c - c.o|
  let lower := min c.o c.c - c.l
  let upper := c.h - max c.o c.c
  (body * 2 < lower ∧ c.o < c.c) ∨ (body * 2 < upper ∧ c.c < c.o)

/-- `SMCStrategies._detect_inducements`. The source scans indices `2..4` of the
last five candles; on the first candle that fires, it appends an
`InducementPattern` to instance state and then evaluates a rationale f-string
that reads the unbound local `wick_percentage` — a `NameError`. A scan in
which no candle fires returns normally with no results. -/
def detect_inducements (candles : List Candle) : Except PyErr Unit :=
  if candles.length < 5 then .ok ()
  else if ((tailN 5 candles).drop 2).any wickFires then .error .nameError
  else .ok ()

/-- Ascending insertion sort used for the exact `np.percentile` model. -/
def insertAsc (x : ℚ) : List ℚ → List ℚ
  | [] => [x]
  | h :: t => if x ≤ h then x :: h :: t else h :: insertAsc x t

/-- Sort ascending. -/
def sortAsc (l : List ℚ) : List ℚ := l.foldr insertAsc []

/-- `np.percentile(l, p)` with linear interpolation. -/
def pyPercentile (l : List ℚ) (p : ℚ) : ℚ :=
  let s := sortAsc l
  let n := s.length
  if n = 0 then 0
  else
    let idx : ℚ := p / 100 * ((n : ℚ) - 1)
    let i : ℕ := (⌊idx⌋).toNat
    let frac := idx - (i : ℚ)
    let a := s.getD i 0
    let b := s.getD (min (i + 1) (n - 1)) 0
    a + frac * (b - a)

/-- `SMCStrategies._detect_bpr_zones`: 25th/75th percentile band of the last
ten candles; fires when the band exceeds 1% and price sits within ±0.5% of it. -/
def detect_bpr_zones (bprs : List BalancedPriceRange) (candles : List Candle) (cur : ℚ) :
    List BalancedPriceRange × List SMCSignalResult :=
  if candles.length < 10 then (bprs, [])
  else
    let recent := tailN 10 candles
    let zone_high := pyPercentile (recent.map (·.h)) 75
    let zone_low := pyPercentile (recent.map (·.l)) 25
    if zone_low * (101/100) < zone_high ∧ zone_low * (995/1000) ≤ cur ∧ cur ≤ zone_high * (1005/1000) then
      let equilibrium := (zone_high + zone_low) / 2
      let bpr : BalancedPriceRange :=
        { high := zone_high, low := zone_low, start_timestamp := (recent.headD default).t
          end_timestamp := (lastD recent).t, equilibrium_price := equilibrium, confirmed := true }
      let result : SMCSignalResult :=
        if equilibrium < cur then
          { signal_type := .bpr_bullish, strength := 65, confidence := 60, price := cur
            entry_zone := (equilibrium * (998/1000), equilibrium * (1002/1000))
            stop_loss := zone_low * (995/1000)
            take_profit := zone_high + (zone_high - zone_low) }
        else
          { signal_type := .bpr_bearish, strength := 65, confidence := 60, price := cur
            entry_zone := (equilibrium * (998/1000), equilibrium * (1002/1000))
            stop_loss := zone_high * (1005/1000)
            take_profit := zone_low - (zone_high - zone_low) }
      (bprs ++ [bpr], [result])
    else (bprs, [])

/-- `SMCStrategies._update_mitigation_tracking`. -/
def update_mitigation_tracking (zones : List MitigationZone) (cur : ℚ) : List MitigationZone :=
  zones.map fun z =>
    if !z.subsequent_rejection ∧
        ((z.direction = .bullish ∧ z.fill_price * (101/100) < cur) ∨
         (z.direction = .bearish ∧ cur < z.fill_price * (99/100))) then
      { z with subsequent_rejection := true }
    else z

/-- What `_detect_mitigation_setups` does to one zone. -/
def mitSetup (cur : ℚ) (z : MitigationZone) : MitigationZone × Option SMCSignalResult :=
  if z.subsequent_rejection ∧ !z.signal_generated then
    ({ z with signal_generated := true },
     some (if z.direction = .bullish then
       { signal_type := .mitigation_bullish, strength := 80, confidence := 75, price := cur
         entry_zone := (z.fill_price * (997/1000), z.fill_price * (1003/1000))
         stop_loss := z.zone_low * (995/1000)
         take_profit := cur + (cur - z.zone_low) * 2 }
     else
       { signal_type := .mitigation_bearish, strength := 80, confidence := 75, price := cur
         entry_zone := (z.fill_price * (997/1000), z.fill_price * (1003/1000))
         stop_loss := z.zone_high * (1005/1000)
         take_profit := cur - (z.zone_high - cur) * 2 }))
  else (z, none)

/-- `SMCStrategies._detect_mitigation_setups`: each mitigated-and-rejected zone
fires once. -/
def detect_mitigation_setups (zones : List MitigationZone) (cur : ℚ) :
    List MitigationZone × List SMCSignalResult :=
  ((zones.map (mitSetup cur)).map Prod.fst, (zones.map (mitSetup cur)).filterMap Prod.snd)

/-- `SMCStrategies._rank_and_filter_signals` (same ranking as the ICT side). -/
def rank_and_filter (signals : List SMCSignalResult) : List SMCSignalResult :=
  if signals.isEmpty then []
  else dedupTop3By (·.signal_type) (stableSortDescBy (fun x => x.strength * x.confidence) signals) [] 0

/-- `SMCStrategies.analyze_candles`: pools and sweeps, inducements (which
either find nothing or raise `NameError`), balanced price ranges, mitigation
tracking, then ranking. -/
def analyze_candles (s : SMCState) (candles : List Candle) :
    Except PyErr (SMCState × List SMCSignalResult) :=
  if candles.length < 30 then .ok (s, [])
  else
    let cur := (lastD candles).c
    let pools1 := detect_liquidity_pools s.liquidity_pools candles
    let sw := detect_liquidity_sweeps pools1 candles cur
    match detect_inducements candles with
    | .error e => .error e
    | .ok _ =>
      let bp := detect_bpr_zones s.bpr_zones candles cur
      let zones1 := update_mitigation_tracking s.mitigation_zones cur
      let mt := detect_mitigation_setups zones1 cur
      .ok ({ liquidity_pools := sw.1, mitigation_zones := mt.1, bpr_zones := bp.1 },
           rank_and_filter (sw.2 ++ bp.2 ++ mt.2))

end SMC

namespace Engine

/-- The stateful parts of `SignalEngine` that the pipeline can observe (the
AI enhancer's performance DB and the kill-zone statistics are never written by
the engine and carry no observable data). -/
structure EngineState where
  ict : ICT.ICTState
  smc : SMC.SMCState
deriving Repr, DecidableEq

/-- `SignalEngine.__init__`. -/
def EngineState.init : EngineState := ⟨.init, .init⟩

/-- `app.models.SignalBreakdown`. -/
structure SignalBreakdown where
  d1 : MiniSignal
  h1 : MiniSignal
  m15 : MiniSignal
deriving Repr, DecidableEq

/-- `app.models.SignalResponse` (symbol, rationale text and timestamp string
omitted; `strength` is the pydantic-validated int field). -/
structure SignalResponse where
  recommendation : Recommendation
  strength : ℤ
  breakdown : SignalBreakdown
deriving Repr, DecidableEq

/-- Python `max(xs, key=...)`: the first element attaining the maximal key. -/
def pyMaxBy (key : α → ℚ) : List α → Option α
  | [] => none
  | x :: rest => some (rest.foldl (fun acc y => if key acc < key y then y else acc) x)

/-- The recommendation logic of `generate_signal` section 6: the ≥2-of-3 vote,
the poor/reject AI downgrade when strength < 50, then the unconditional
neutral override when strength < 40 — all evaluated against the
pre-kill-zone-adjustment strength. -/
def decide_recommendation (bullish_count bearish_count : ℕ) (quality : AI.SignalQuality)
    (final_strength : ℤ) : Recommendation :=
  let rec0 : Recommendation :=
    if 2 ≤ bullish_count then .buy else if 2 ≤ bearish_count then .sell else .neutral
  let rec1 : Recommendation :=
    if (quality = .poor ∨ quality = .reject) ∧ final_strength < 50 then .neutral else rec0
  if final_strength < 40 then .neutral else rec1

/-- Everything `generate_signal` computes up to and including the kill-zone
strength adjustment (section 7), before the `SignalResponse` is constructed. -/
structure PipelineOut where
  state : EngineState
  weighted_strength : ℚ
  confluence_bonus : ℚ
  bullish_count : ℕ
  bearish_count : ℕ
  phase1_bonus : ℚ
  ai : AI.AIConfidenceScore
  final_strength_pre : ℤ
  recommendation : Recommendation
  final_strength : ℤ
  breakdown : SignalBreakdown
deriving Repr, DecidableEq

/-- `SignalEngine.generate_signal` sections 1-7: ICT analysis on the analysis
timeframe (1h, falling back to 15m), SMC analysis, the three per-timeframe
evaluations, weighting, confluence, Phase-1 bonus, AI enhancement, the
clamped-above strength, the recommendation, and the kill-zone timestamp
adjustment. `now` models `datetime.utcnow()`. -/
def signal_pipeline (s : EngineState) (candles_15m candles_1h candles_1d : List Candle)
    (now : ℤ) : Except PyErr PipelineOut :=
  let analysis := if candles_1h.isEmpty then candles_15m else candles_1h
  match ICT.analyze_candles s.ict analysis with
  | .error e => .error e
  | .ok (ictState, ict_signals) =>
    let liquidity_pools := ICT.get_liquidity_pools ictState.order_blocks
    match SMC.analyze_candles s.smc analysis with
    | .error e => .error e
    | .ok (smcState, smc_signals) =>
      let m15 := evaluate_timeframe candles_15m
      let h1 := evaluate_timeframe candles_1h
      let d1 := evaluate_timeframe candles_1d
      let weighted := m15.2 * (35/100) + h1.2 * (35/100) + d1.2 * (30/100)
      let sigs := [m15.1, h1.1, d1.1]
      let bullish_count := sigs.count .bullish
      let bearish_count := sigs.count .bearish
      let confluence : ℚ :=
        if 2 ≤ bullish_count then 15 * bullish_count
        else if 2 ≤ bearish_count then 15 * bearish_count
        else 0
      let preliminary : Recommendation :=
        if 2 ≤ bullish_count then .buy else if 2 ≤ bearish_count then .sell else .neutral
      let phase1_bonus := Phase1.calculate_phase1_enhancement analysis liquidity_pools preliminary
      let strongest_ict := pyMaxBy (fun x => x.strength * x.confidence) ict_signals
      let strongest_smc := pyMaxBy (fun x => x.strength * x.confidence) smc_signals
      let pbs : AI.PatternTag × ℚ × ℚ :=
        match strongest_ict, strongest_smc with
        | some si, _ => (.ict si.signal_type, si.strength, si.confidence)
        | none, some ss => (.smc ss.signal_type, ss.strength, ss.confidence)
        | none, none => (.neutral, weighted, 50)
      match AI.enhance_signal analysis pbs.1 pbs.2.1 pbs.2.2 ict_signals smc_signals with
      | .error e => .error e
      | .ok ai =>
        let final_pre : ℤ :=
          min 100 (pyIntTrunc (weighted + confluence + phase1_bonus +
            (ai.success_probability - 50) * (3/10)))
        let recommendation := decide_recommendation bullish_count bearish_count ai.quality_rating final_pre
        let kz := KillZones.get_current_kill_zone now
        let should_trade := KillZones.should_trade_signal now (final_pre : ℚ)
        let final : ℤ :=
          if kz.is_active ∧ kz.optimal_for_entries then min 100 (final_pre + 5)
          else if kz.zone_type = .off_hours ∧ !should_trade then max 0 (final_pre - 15)
          else final_pre
        .ok { state := ⟨ictState, smcState⟩
              weighted_strength := weighted
              confluence_bonus := confluence
              bullish_count := bullish_count
              bearish_count := bearish_count
              phase1_bonus := phase1_bonus
              ai := ai
              final_strength_pre := final_pre
              recommendation := recommendation
              final_strength := final
              breakdown := ⟨d1.1, h1.1, m15.1⟩ }

/-- `SignalEngine.generate_signal`: the pipeline result packaged as a
`SignalResponse`. Pydantic's `strength: int = Field(ge=0, le=100)` validates
the field on construction and raises otherwise, modeled as
`PyErr.validationError`. -/
def generate_signal (s : EngineState) (candles_15m candles_1h candles_1d : List Candle)
    (now : ℤ) : Except PyErr (EngineState × SignalResponse) :=
  match signal_pipeline s candles_15m candles_1h candles_1d now with
  | .error e => .error e
  | .ok out =>
    if 0 ≤ out.final_strength ∧ out.final_strength ≤ 100 then
      .ok (out.state,
        { recommendation := out.recommendation, strength := out.final_strength
          breakdown := out.breakdown })
    else .error .validationError

end Engine

/- Concrete fixtures: candle series and blocks used to evaluate the embedded
pipeline at specific inputs in the theorems below. -/

/-- A flat candle (open = high = low = close = `p`). -/
def mkDoji (t : ℤ) (p v : ℚ) : Candle := ⟨t, p, p, p, p, v⟩

/-- Flat candles at the given closes, timestamps `t0, t0 + dt, ...`. -/
def dojiSeries (t0 dt : ℤ) (v : ℚ) (closes : List ℚ) : List Candle :=
  (closes.zip (List.range closes.length)).map fun p => mkDoji (t0 + dt * (p.2 : ℤ)) p.1 v

/-- Last 20 closes of the `c1closes` fixture: a descending zig-zag after a long
rise, keeping RSI moderate while SMA50 stays above SMA200. -/
def c1tail : List ℚ :=
  [933, 929, 925, 930, 926, 922, 927, 923, 919, 924,
   920, 916, 921, 917, 913, 918, 914, 910, 915, 911]

/-- 200 closes: 180 rising by 3 from 400, then `c1tail`. -/
def c1closes : List ℚ := ((List.range 180).map fun i => (400 : ℚ) + 3 * (i : ℚ)) ++ c1tail

/-- 200 flat candles on `c1closes`, one every 10 seconds from 10:00:00 UTC. -/
def c1fix : List Candle := dojiSeries 36000 10 100 c1closes

/-- The MACD-line array over `c1closes` (periods 12/26) as a literal list;
`c1_marr` below certifies it against `macdLineArr`. It stages the evaluation
of the signal line, whose nested EMA-of-EMA recursion is too deep to evaluate
in one pass. -/
def c1marr : List ℚ := [0, 0, 0, 0, 0, 0, 0, 0, 0, 0, 0, 833/2, 839/2, 845/2, 851/2, 857/2, 863/2, 869/2, 875/2, 881/2, 887/2, 893/2, 899/2, 905/2, 911/2, 21, 21, 21, 21, 21, 21, 21, 21, 21, 21, 21, 21, 21, 21, 21, 21, 21, 21, 21, 21, 21, 21, 21, 21, 21, 21, 21, 21, 21, 21, 21, 21, 21, 21, 21, 21, 21, 21, 21, 21, 21, 21, 21, 21, 21, 21, 21, 21, 21, 21, 21, 21, 21, 21, 21, 21, 21, 21, 21, 21, 21, 21, 21, 21, 21, 21, 21, 21, 21, 21, 21, 21, 21, 21, 21, 21, 21, 21, 21, 21, 21, 21, 21, 21, 21, 21, 21, 21, 21, 21, 21, 21, 21, 21, 21, 21, 21, 21, 21, 21, 21, 21, 21, 21, 21, 21, 21, 21, 21, 21, 21, 21, 21, 21, 21, 21, 21, 21, 21, 21, 21, 21, 21, 21, 21, 21, 21, 21, 21, 21, 21, 21, 21, 21, 21, 21, 21, 21, 21, 21, 21, 21, 21, 21, 21, 21, 21, 21, 21, 21, 21, 21, 21, 21, 21, 7175/351, 2396513/123201, 784265699/43243551, 262543944593/15178486401, 85901096463959/5327648726751, 27491731091347061/1870004703089601, 9070054061066773607/656371650784449951, 2914420657503399726017/230386449425341932801, 911479398387006010693187/80865643748295018413151, 296946921955963382675212529/28383840955651551463016001, 93541446340270495077964525751/9962728175433694563518616351, 28404152426200308634654960624085/3496917589577226791795034339201, 9127863163642794184206164467553735/1227418073941606603920057053059551, 2798349250565373251977117834635948833/430823743953503917975940025623902401, 811253982658249015285961985043058834339/151219134127679875209554948993989742751, 255659994580483416890114748567706197838673/53077916078815636198553787096890399705601, 74769499352145847850935868847980276304055319/18630348543664288305692379271008530296665951, 19742448583263155257726237839592935721517910581/6539252338826165195298025124123994134129748801, 5978172421259467733835858713052869027313365547047/2295277570927983983549606818567521941079541829151, 1555712308579978663036323048372613957068488366567297/805642427395722378225911993317200201318919182032001]

/-- 24 one-minute candles: 21 alternating flat candles (volume drops on the
last two), then three candles that form a bearish fair-value gap and sweep
nothing; evaluated at an Asian-session timestamp they drive the AI success
probability below 50 while every mini-signal stays Neutral. -/
def c2fix : List Candle :=
  ((List.range 21).map fun i =>
    mkDoji (36000 + 60 * (i : ℤ)) (if i % 2 = 0 then 100 else 1003/10) (if i ≤ 18 then 100 else 10)) ++
  [⟨37260, 998/10, 1003/10, 998/10, 1003/10, 10⟩,
   ⟨37320, 1005/10, 1005/10, 100, 100, 10⟩,
   ⟨37380, 998/10, 1003/10, 998/10, 1003/10, 10⟩]

/-- 30 hourly candles: 29 flat ones, then a candle with a long lower wick
closing above its open (the inducement pattern). -/
def c3fix : List Candle :=
  ((List.range 29).map fun i => mkDoji (3600 * (i : ℤ)) 100 50) ++
  [⟨3600 * 29, 100, 101, 97, 101, 50⟩]

/-- Sixteen strictly increasing prices: every delta is a gain, none a loss. -/
def c4prices : List ℚ := (List.range 16).map fun i => (100 : ℚ) + (i : ℚ)

/-- An unbroken bearish order block with high 110 and low 108. -/
def c5b : ICT.OrderBlock :=
  ⟨110, 108, 0, .bearish, false, false, false⟩

/-- Three candles whose last close is 111. -/
def c5recent : List Candle := [mkDoji 0 100 1, mkDoji 60 100 1, mkDoji 120 111 1]

/-- `macd [5, 7] 1 1 1`: the smallest configuration on which every output
index past the warm-up is defined. -/
def c9out : Indicators.MacdOut :=
  ⟨[some 0, some 0], [none, some 0], [none, some 0]⟩

/-- 50 one-minute candles: 35 flat at 100, a 2.6% drop to 97.4 (leaving a
bearish order block with high 100), then 14 closes rising by 0.08. -/
def c10A : List Candle :=
  dojiSeries 0 60 1 (((List.range 35).map fun _ => (100 : ℚ)) ++ [974/10] ++
    ((List.range 14).map fun k => 974/10 + (8/100) * ((k : ℚ) + 1)))

/-- 50 one-minute candles rising by 0.1 from 98, then a close at 102.5: no
order block of its own, but above the `c10A` block's high. -/
def c10B : List Candle :=
  dojiSeries 0 60 1 (((List.range 49).map fun i => (98 : ℚ) + (1/10) * (i : ℚ)) ++ [1025/10])

/-- The pipeline output on `c2fix` at the Asian-session timestamp 93600: both
detectors are below their length guards (state unchanged), every mini-signal is
Neutral, and the AI success probability 43 drags the truncated strength to -2. -/
def c2out : Engine.PipelineOut :=
  { state := .init
    weighted_strength := 0
    confluence_bonus := 0
    bullish_count := 0
    bearish_count := 0
    phase1_bonus := 0
    ai := { success_probability := 43, quality_rating := .poor, market_regime := .ranging
            regime_alignment_score := 30, false_signal_risk := 60, confluence_bonus := 0
            adjusted_strength := 0 }
    final_strength_pre := -2
    recommendation := .neutral
    final_strength := -2
    breakdown := ⟨.neutral, .neutral, .neutral⟩ }

end GloryPicks

namespace GloryPicks

namespace Indicators

/-- Past the seed index, `emaVal` continues by the plain recurrence, so its
value at `start + m` is `emaFrom` of its value at `start`. -/
theorem emaVal_from (data : List ℚ) (p start : ℕ) (h : p ≤ start + 1) :
    ∀ m, emaVal data p (start + m) = emaFrom data p start (emaVal data p start) m := by
  intro m
  induction m with
  | zero => rfl
  | succ m ih =>
    have h1 : ¬ (start + m + 1 < p - 1) := by omega
    have h2 : ¬ (start + m + 1 + 1 = p) := by omega
    show emaVal data p ((start + m) + 1) = _
    rw [emaVal, if_neg h1, if_neg h2, ih]
    rfl

/-- Elements of a mapped range. -/
theorem getElem?_range_map (f : ℕ → α) (n i : ℕ) :
    ((List.range n).map f)[i]? = if i < n then some (f i) else none := by
  rcases Nat.lt_or_ge i n with h | h
  · simp [List.getElem?_map, List.getElem?_range, h]
  · rw [if_neg (by omega)]
    rw [List.getElem?_eq_none]
    simpa using h

/-- The sma output has one entry per price (positive period). -/
theorem sma_length (prices : List ℚ) (p : ℕ) (hp : 1 ≤ p) :
    (sma prices p).length = prices.length := by
  unfold sma
  split
  · simp
  · simp only [List.length_append, List.length_replicate, List.length_map, List.length_range]
    omega

/-- Entries of the sma warm-up region are the sentinel. -/
theorem sma_getElem?_lt (prices : List ℚ) (p i : ℕ) (hpn : p ≤ prices.length)
    (hi : i < p - 1) : (sma prices p)[i]? = some none := by
  unfold sma
  rw [if_neg (by omega), List.getElem?_append, if_pos (by simp; omega)]
  simp [List.getElem?_replicate, hi]

/-- Entries of the sma past the warm-up are the sliding window means. -/
theorem sma_getElem?_ge (prices : List ℚ) (p i : ℕ) (hp : 1 ≤ p) (hpn : p ≤ prices.length)
    (h1 : p - 1 ≤ i) (h2 : i < prices.length) :
    (sma prices p)[i]? = some (some (windowMean prices (i + 1 - p) p)) := by
  unfold sma
  rw [if_neg (by omega), List.getElem?_append, if_neg (by simp; omega)]
  rw [List.length_replicate, getElem?_range_map, if_pos (by omega)]
  have : i - (p - 1) = i + 1 - p := by omega
  rw [this]

/-- Entries of the rsi past the warm-up are `rsiAt`. -/
theorem rsi_getElem?_ge (prices : List ℚ) (p i : ℕ) (hpn : p + 1 ≤ prices.length)
    (h1 : p ≤ i) (h2 : i < prices.length) :
    (rsi prices p)[i]? = some (some (rsiAt prices p i)) := by
  unfold rsi
  rw [if_neg (by omega), List.getElem?_append, if_neg (by simp; omega)]
  rw [List.length_replicate, getElem?_range_map, if_pos (by omega)]
  have : p + (i - p) = i := by omega
  rw [this]

/-- The last sma entry is the mean of the final window (how
`evaluate_timeframe` reads `sma50`/`sma200` at index `[-1]`). -/
theorem sma_getLastD (prices : List ℚ) (p : ℕ) (hp : 1 ≤ p) (hpn : p ≤ prices.length) :
    (sma prices p).getLastD none = some (windowMean prices (prices.length - p) p) := by
  have hlen := sma_length prices p hp
  have hne : sma prices p ≠ [] := by
    intro h
    rw [h] at hlen
    simp at hlen
    omega
  rw [List.getLastD_eq_getLast?, List.getLast?_eq_getElem?, hlen]
  rw [sma_getElem?_ge prices p _ hp hpn (by omega) (by omega)]
  have : prices.length - 1 + 1 - p = prices.length - p := by omega
  rw [this]
  rfl

/-- The last rsi entry is `rsiAt` at the last index. -/
theorem rsi_getLastD (prices : List ℚ) (p : ℕ) (hpn : p + 1 ≤ prices.length) :
    (rsi prices p).getLastD none = some (rsiAt prices p (prices.length - 1)) := by
  have hlen : (rsi prices p).length = prices.length := by
    unfold rsi
    rw [if_neg (by omega)]
    simp only [List.length_append, List.length_replicate, List.length_map, List.length_range]
    omega
  rw [List.getLastD_eq_getLast?, List.getLast?_eq_getElem?, hlen]
  rw [rsi_getElem?_ge prices p _ hpn (by omega) (by omega)]
  rfl

/-- The last signal-line entry `macd` returns is `signalAt` at the last index
(how `evaluate_timeframe` reads `macd_signal` at `[-1]`; the hypotheses hold
with room to spare for periods 12/26/9 on 200 prices). -/
theorem macd_signal_getLastD (prices : List ℚ) (fast slow signalp : ℕ)
    (hf : 1 ≤ fast) (hs : 1 ≤ slow) (hg : 1 ≤ signalp)
    (hfn : fast ≤ prices.length) (hn : slow + signalp ≤ prices.length) :
    ∃ out, macd prices fast slow signalp = .ok out ∧
      out.signal_line.getLastD none =
        some (signalAt prices fast slow signalp (prices.length - 1)) := by
  have hnn : 1 ≤ prices.length := by omega
  unfold macd
  rw [if_neg (by omega), if_neg (by push_neg; omega)]
  refine ⟨_, rfl, ?_⟩
  rw [List.getLastD_eq_getLast?, List.getLast?_eq_getElem?]
  simp only [List.length_map, List.length_range]
  rw [getElem?_range_map, if_pos (by omega), if_pos (by omega)]
  rfl

end Indicators

/- C1 evaluation chain. The signal line is an EMA of the MACD-line array, a
nested recursion whose direct evaluation at index 199 runs too deep; rewriting
the array to the literal `c1marr` first keeps every evaluation shallow. -/

/-- The MACD-line array over `c1closes` equals its literal form. -/
theorem c1_marr : Indicators.macdLineArr c1closes 12 26 = c1marr := by
  with_unfolding_all rfl

/-- The signal line over `c1closes` at the last index. -/
theorem c1_signal : Indicators.signalAt c1closes 12 26 9 199 =
    (5196073322592606625009754996460703296102593737405832696978877702558935984183618693070567814390811049519844629802970477206344184738725492985386924770831883588882867785214915743069950709 : ℚ) /
      1026769947479391432586416647975302642229546007278629135716516156514603692820002393934148747889008737772445063871094476061817078933549175119859138416433808060901355929672718048095703125 := by
  show Indicators.emaVal (Indicators.macdLineArr c1closes 12 26) 9 199 = _
  rw [c1_marr]
  with_unfolding_all rfl

/-- The MACD histogram over `c1closes` at the last index (negative: the MACD
line sits below its signal line on this fixture). -/
theorem c1_hist : Indicators.histAt c1closes 12 26 9 199 =
    (-3213359166714240591162526717772891515433551156349137300295681282544422252105249672441716829232725054324375735622332263120872825997809064674419539075535966585860244536816611757474247584 : ℚ) /
      1026769947479391432586416647975302642229546007278629135716516156514603692820002393934148747889008737772445063871094476061817078933549175119859138416433808060901355929672718048095703125 := by
  unfold Indicators.histAt
  rw [c1_signal]
  with_unfolding_all rfl

/-- `evaluate_timeframe` on the C1 fixture: trend and location are bullish
(+30, +25), RSI sits between 40 and 60 (no contribution), MACD is bearish
(-20): net 35, a Bullish mini-signal of strength 35. -/
theorem c1_eval_tf : evaluate_timeframe c1fix = (.bullish, 35) := by
  have hmap : c1fix.map (fun c => c.c) = c1closes := by with_unfolding_all rfl
  have hlen : c1closes.length = 200 := by with_unfolding_all rfl
  simp only [evaluate_timeframe, hmap, hlen]
  rw [if_neg (by decide), show (200 : ℕ) - 1 = 199 from rfl, c1_signal, c1_hist]
  with_unfolding_all rfl

/-- C1. The spec claims `strength < 40 ⇒ recommendation = Neutral` holds
against the final, kill-zone-adjusted strength. Counterexample: with the
200-candle `c1fix` on the 15m and 1d timeframes, `c2fix` on 1h and
`now = 64800` (13:00 EST, off-hours), `generate_signal` returns strength 36
with recommendation Buy: the neutrality check ran against the pre-adjustment
strength 51, and the off-hours -15 adjustment was applied afterwards. -/
theorem c1_counterexample :
    (Engine.generate_signal .init c1fix c2fix c1fix 64800).map
        (fun p => (p.2.strength, p.2.recommendation)) = .ok (36, .buy) ∧
    (36 : ℤ) < 40 ∧ Recommendation.buy ≠ .neutral := by
  refine ⟨?_, by decide, by decide⟩
  unfold Engine.generate_signal Engine.signal_pipeline
  simp only [c1_eval_tf]
  with_unfolding_all rfl

/-- Helper: `decide_recommendation` is Neutral below strength 40. -/
theorem decide_rec_lt40 (bc brc : ℕ) (q : AI.SignalQuality) (fp : ℤ) (h : fp < 40) :
    Engine.decide_recommendation bc brc q fp = .neutral := by
  simp only [Engine.decide_recommendation]
  rw [if_pos h]

/-- C1 (amended). The neutrality override holds against the strength value the
recommendation is decided on — `final_strength` *before* the kill-zone
adjustment: every pipeline output whose pre-adjustment strength is below 40
carries recommendation Neutral. -/
theorem c1_amended (s : Engine.EngineState) (m15c h1c d1c : List Candle) (now : ℤ)
    (out : Engine.PipelineOut)
    (h : Engine.signal_pipeline s m15c h1c d1c now = .ok out)
    (h40 : out.final_strength_pre < 40) :
    out.recommendation = .neutral := by
  simp only [Engine.signal_pipeline] at h
  repeat' split at h
  any_goals exact Except.noConfusion h
  all_goals simp only [Except.ok.injEq] at h
  all_goals subst h
  all_goals exact decide_rec_lt40 _ _ _ _ h40

/-- C1 (amended) at a concrete input: on `c2fix` the pipeline's pre-adjustment
strength is -2 < 40 and the recommendation is Neutral. -/
theorem c1_amended_witness :
    Engine.signal_pipeline .init c2fix c2fix [] 93600 = .ok c2out ∧
    c2out.final_strength_pre < 40 ∧ c2out.recommendation = .neutral := by
  have h : Engine.signal_pipeline .init c2fix c2fix [] 93600 = .ok c2out := by
    with_unfolding_all rfl
  exact ⟨h, by decide, c1_amended .init c2fix c2fix [] 93600 c2out h (by decide)⟩

/-- C2. The spec claims the final strength is clamped to [0,100]. It is only
clamped from above: on `c2fix` (all mini-signals Neutral, AI success
probability 43) the pre-adjustment strength truncates to -2, nothing clamps it
from below, and the pydantic `ge=0` validation rejects the response, so
`generate_signal` raises instead of returning a clamped result. -/
theorem c2_bug :
    (Engine.signal_pipeline .init c2fix c2fix [] 93600).map (fun o => o.final_strength) =
      .ok (-2) ∧
    Engine.generate_signal .init c2fix c2fix [] 93600 = .error .validationError := by
  refine ⟨?_, ?_⟩ <;> with_unfolding_all rfl

/-- C3. `generate_signal` is not total on well-formed input: `c3fix` has
ascending timestamps and ordinary prices, yet its last candle's long lower
wick makes `_detect_inducements` evaluate the rationale f-string that reads
the unbound local `wick_percentage`, a `NameError` that propagates out of
`analyze_candles` and out of `generate_signal`. -/
theorem c3_bug :
    SMC.analyze_candles .init c3fix = .error .nameError ∧
    Engine.generate_signal .init c3fix c3fix [] 0 = .error .nameError := by
  refine ⟨?_, ?_⟩ <;> with_unfolding_all rfl

/-- C4. Counterexample to "RSI is 100 when gains exist and losses are zero":
on sixteen strictly rising prices the average loss is 0 and the average gain
is positive, yet `rs` is set to 0 and the RSI value is 0, not 100 (both in
`rsiAt` and in the list `rsi` returns). -/
theorem c4_counterexample :
    Indicators.avgLossAt c4prices 14 15 = 0 ∧ 0 < Indicators.avgGainAt c4prices 14 15 ∧
    (Indicators.rsi c4prices 14)[15]? = some (some 0) ∧ Indicators.rsiAt c4prices 14 15 = 0 := by
  refine ⟨?_, ?_, ?_, ?_⟩ <;> with_unfolding_all decide

/-- C4 (amended). Whenever the Wilder-smoothed average loss is zero the RSI
value is 0 — regardless of the average gain (`np.where` maps RS to 0 there). -/
theorem c4_amended (prices : List ℚ) (p i : ℕ)
    (h : Indicators.avgLossAt prices p i = 0) :
    Indicators.rsiAt prices p i = 0 := by
  simp only [Indicators.rsiAt]
  rw [h]
  norm_num

/-- C4 (amended) at a concrete input: rising prices, average loss 0, RSI 0. -/
theorem c4_amended_witness :
    Indicators.avgLossAt c4prices 14 15 = 0 ∧ Indicators.rsiAt c4prices 14 15 = 0 :=
  ⟨by with_unfolding_all decide,
   c4_amended c4prices 14 15 (by with_unfolding_all decide)⟩

/-- C5. An unbroken bearish order block with high 110 and low 108 among the
ten most recent blocks, scanned against at least three recent candles whose
last close is 111: the block is replaced by its broken/breaker-confirmed copy
in the updated order-block state, and a BULLISH_BREAKER signal with strength
85 and confidence 90 is emitted. -/
theorem c5_confirmed (obs : List ICT.OrderBlock) (recent : List Candle) (b : ICT.OrderBlock)
    (hty : b.type = .bearish) (hh : b.high = 110) (_hlow : b.low = 108) (hbr : b.broken = false)
    (hmem : b ∈ obs.drop (obs.length - 10)) (hr : 3 ≤ recent.length)
    (hc : (lastD recent).c = 111) :
    ({ b with broken := true, breaker_confirmed := true } : ICT.OrderBlock) ∈
      (ICT.detect_breaker_blocks obs recent).1 ∧
    ∃ sig ∈ (ICT.detect_breaker_blocks obs recent).2,
      sig.signal_type = .bullish_breaker ∧ sig.strength = 85 ∧ sig.confidence = 90 := by
  have hmark : ICT.breakerMark ((lastD recent).c) b =
      { b with broken := true, breaker_confirmed := true } := by
    unfold ICT.breakerMark
    rw [if_pos ⟨by simp [hbr], Or.inl ⟨hty, by rw [hh, hc]; norm_num⟩⟩]
  have hsig : ∃ sig, ICT.breakerSignal ((lastD recent).c) b = some sig ∧
      sig.signal_type = .bullish_breaker ∧ sig.strength = 85 ∧ sig.confidence = 90 := by
    unfold ICT.breakerSignal
    rw [if_neg (by simp [hbr]), if_pos ⟨hty, by rw [hh, hc]; norm_num⟩]
    exact ⟨_, rfl, rfl, rfl, rfl⟩
  obtain ⟨sig, hs, h1, h2, h3⟩ := hsig
  simp only [ICT.detect_breaker_blocks]
  rw [if_neg (by omega)]
  exact ⟨List.mem_append_right _ (List.mem_map.mpr ⟨b, hmem, hmark⟩),
         ⟨sig, List.mem_filterMap.mpr ⟨b, hmem, hs⟩, h1, h2, h3⟩⟩

/-- C5 at a concrete input: one block, three flat candles closing at 111. -/
theorem c5_confirmed_witness :
    ({ c5b with broken := true, breaker_confirmed := true } : ICT.OrderBlock) ∈
      (ICT.detect_breaker_blocks [c5b] c5recent).1 ∧
    ∃ sig ∈ (ICT.detect_breaker_blocks [c5b] c5recent).2,
      sig.signal_type = .bullish_breaker ∧ sig.strength = 85 ∧ sig.confidence = 90 :=
  c5_confirmed [c5b] c5recent c5b rfl rfl rfl rfl (by with_unfolding_all decide)
    (by decide) (by with_unfolding_all rfl)

/-- C6. Counterexample to "Asian session is always refused": `t = 90000` falls
at 20:00 EST, inside the active Asian session, and strength 70 is accepted —
the `strength ≥ 70` rule fires before the Asian-session refusal. -/
theorem c6_counterexample :
    (KillZones.get_current_kill_zone 90000).zone_type = .asian_session ∧
    KillZones.should_trade_signal 90000 70 = true := by
  refine ⟨?_, ?_⟩ <;> with_unfolding_all rfl

/-- C6 (amended). The Asian-session refusal holds for signals below strength
70: the session is never optimal-for-entries, so only the `≥ 70` rule can
accept inside it. -/
theorem c6_amended (t : ℤ) (strength : ℚ)
    (hz : (KillZones.get_current_kill_zone t).zone_type = .asian_session)
    (hs : strength < 70) :
    KillZones.should_trade_signal t strength = false := by
  have hkz : KillZones.get_current_kill_zone t =
      KillZones.active_info .asian_session (KillZones.hm 20 0) (KillZones.hm 0 0)
        (KillZones.estSod t) := by
    unfold KillZones.get_current_kill_zone at hz ⊢
    simp only [KillZones.killZoneTable, KillZones.classify_zone] at hz ⊢
    split_ifs at hz ⊢ <;>
      first
        | rfl
        | simp_all [KillZones.active_info, KillZones.off_hours_info]
  simp only [KillZones.should_trade_signal, hkz, KillZones.active_info, KillZones.zone_flags]
  simp [hs.not_le]

/-- C6 (amended) at a concrete input: 20:00 EST, strength 69, refused. -/
theorem c6_amended_witness :
    (KillZones.get_current_kill_zone 90000).zone_type = .asian_session ∧ (69 : ℚ) < 70 ∧
    KillZones.should_trade_signal 90000 69 = false := by
  have hz : (KillZones.get_current_kill_zone 90000).zone_type = .asian_session := by
    with_unfolding_all rfl
  exact ⟨hz, by norm_num, c6_amended 90000 69 hz (by norm_num)⟩

/-- C7. The promised inducement signal (strength 75, confidence 70) is never
produced: `c3fix`'s last candle has a lower wick more than twice its body and
closes above its open, yet the scan raises `NameError` (the rationale
f-string reads the unbound `wick_percentage`) instead of returning a signal,
and `analyze_candles` propagates the exception. -/
theorem c7_bug :
    SMC.wickFires (lastD c3fix) = true ∧
    SMC.detect_inducements c3fix = .error .nameError ∧
    SMC.analyze_candles .init c3fix = .error .nameError := by
  refine ⟨?_, ?_, ?_⟩ <;> with_unfolding_all rfl

/-- C8. `sma` returns one entry per price with exactly `p-1` leading
sentinels followed by the sliding window means when `p ≤ len`, and all
sentinels when `len < p` (stated for positive periods, the only ones an SMA
is defined for and the source is called with). -/
theorem c8_confirmed (prices : List ℚ) (p : ℕ) (hp : 1 ≤ p) :
    (Indicators.sma prices p).length = prices.length ∧
    (prices.length < p → Indicators.sma prices p = List.replicate prices.length none) ∧
    (p ≤ prices.length →
      (∀ i, i < p - 1 → (Indicators.sma prices p)[i]? = some none) ∧
      (∀ i, p - 1 ≤ i → i < prices.length →
        (Indicators.sma prices p)[i]? =
          some (some (Indicators.windowMean prices (i + 1 - p) p)))) := by
  refine ⟨Indicators.sma_length prices p hp, fun hlt => ?_, fun hle => ?_⟩
  · unfold Indicators.sma
    rw [if_pos hlt]
  · exact ⟨fun i hi => Indicators.sma_getElem?_lt prices p i hle hi,
           fun i h1 h2 => Indicators.sma_getElem?_ge prices p i hp hle h1 h2⟩

/-- C8 at a concrete input: period 2 over three prices. -/
theorem c8_confirmed_witness :
    1 ≤ 2 ∧
    ((Indicators.sma [(1 : ℚ), 2, 3] 2).length = [(1 : ℚ), 2, 3].length ∧
     ([(1 : ℚ), 2, 3].length < 2 →
       Indicators.sma [(1 : ℚ), 2, 3] 2 = List.replicate [(1 : ℚ), 2, 3].length none) ∧
     (2 ≤ [(1 : ℚ), 2, 3].length →
       (∀ i, i < 2 - 1 → (Indicators.sma [(1 : ℚ), 2, 3] 2)[i]? = some none) ∧
       (∀ i, 2 - 1 ≤ i → i < [(1 : ℚ), 2, 3].length →
         (Indicators.sma [(1 : ℚ), 2, 3] 2)[i]? =
           some (some (Indicators.windowMean [(1 : ℚ), 2, 3] (i + 1 - 2) 2))))) :=
  ⟨by decide, c8_confirmed [(1 : ℚ), 2, 3] 2 (by decide)⟩

/-- C9. Wherever both the MACD line and the signal line are defined, the
histogram entry is exactly their difference (the arrays are exact here, so
the 1e-6 tolerance is subsumed). -/
theorem c9_confirmed (prices : List ℚ) (fast slow signalp : ℕ) (out : Indicators.MacdOut)
    (hok : Indicators.macd prices fast slow signalp = .ok out) (i : ℕ) (ml sl : ℚ)
    (hml : out.macd_line[i]? = some (some ml)) (hsl : out.signal_line[i]? = some (some sl)) :
    out.histogram[i]? = some (some (ml - sl)) := by
  simp only [Indicators.macd] at hok
  split at hok
  · simp only [Except.ok.injEq] at hok
    subst hok
    rw [List.getElem?_replicate] at hml
    split at hml
    · simp at hml
    · exact Option.noConfusion hml
  · split at hok
    · exact Except.noConfusion hok
    · simp only [Except.ok.injEq] at hok
      subst hok
      rcases Nat.lt_or_ge i prices.length with hin | hin
      · rw [Indicators.getElem?_range_map, if_pos hin] at hml hsl
        rw [Indicators.getElem?_range_map, if_pos hin]
        rw [Option.some.injEq] at hml hsl
        by_cases hminp : slow + signalp - 1 ≤ i
        · rw [if_pos hminp] at hsl
          rw [if_pos hminp]
          rw [if_pos (show slow - 1 ≤ i by omega)] at hml
          rw [Option.some.injEq] at hml hsl
          subst hml
          subst hsl
          rfl
        · rw [if_neg hminp] at hsl
          exact Option.noConfusion hsl
      · rw [Indicators.getElem?_range_map, if_neg (by omega)] at hml
        exact Option.noConfusion hml

/-- C9 at a concrete input: `macd [5, 7] 1 1 1`, index 1. -/
theorem c9_confirmed_witness :
    Indicators.macd [(5 : ℚ), 7] 1 1 1 = .ok c9out ∧
    c9out.macd_line[1]? = some (some 0) ∧ c9out.signal_line[1]? = some (some 0) ∧
    c9out.histogram[1]? = some (some ((0 : ℚ) - 0)) := by
  have hok : Indicators.macd [(5 : ℚ), 7] 1 1 1 = .ok c9out := by with_unfolding_all rfl
  exact ⟨hok, by with_unfolding_all decide, by with_unfolding_all decide,
    c9_confirmed [(5 : ℚ), 7] 1 1 1 c9out hok 1 0 0 (by with_unfolding_all decide)
      (by with_unfolding_all decide)⟩

/-- C10 (amended). The accumulated order-block state does influence later
calls with *different* candle arguments: a fresh detector finds no signal on
`c10B`, but after one call on `c10A` (which leaves a bearish order block with
high 100) the same `c10B` call emits a BULLISH_BREAKER — the output is not a
function of the candle argument alone. -/
theorem c10_amended :
    (ICT.analyze_candles .init c10B).map (fun p => p.2.map (·.signal_type)) = .ok [] ∧
    ((ICT.analyze_candles .init c10A).bind fun p =>
      (ICT.analyze_candles p.1 c10B).map fun q => q.2.map (·.signal_type)) =
        .ok [.bullish_breaker] := by
  refine ⟨?_, ?_⟩ <;> with_unfolding_all rfl

/-- Folding the Python-max step from a `some` accumulator is folding `max`. -/
theorem foldl_maxQ_some (l : List ℚ) : ∀ m : ℚ,
    l.foldl (fun acc x => some (match acc with | none => x | some v => max v x)) (some m) =
      some (l.foldl max m) := by
  induction l with
  | nil => intro m; rfl
  | cons a t ih => intro m; exact ih (max m a)

/-- `maxQ?` on a nonempty list is a `max` fold from the head. -/
theorem maxQ?_cons (a : ℚ) (l : List ℚ) : maxQ? (a :: l) = some (l.foldl max a) := by
  unfold maxQ?
  exact foldl_maxQ_some l a

/-- A `max` fold distributes over `max` in the seed. -/
theorem foldl_max_max (l : List ℚ) : ∀ m n : ℚ,
    l.foldl max (max m n) = max m (l.foldl max n) := by
  induction l with
  | nil => intro m n; rfl
  | cons a t ih =>
    intro m n
    rw [List.foldl_cons, List.foldl_cons, max_assoc]
    exact ih m (max n a)

/-- Python `max` is unchanged by duplicating the list. -/
theorem maxQ?_self_append (l : List ℚ) : maxQ? (l ++ l) = maxQ? l := by
  cases l with
  | nil => rfl
  | cons a t =>
    rw [List.cons_append, maxQ?_cons, maxQ?_cons, List.foldl_append, List.foldl_cons,
      foldl_max_max, max_self]

/-- Folding the Python-min step from a `some` accumulator is folding `min`. -/
theorem foldl_minQ_some (l : List ℚ) : ∀ m : ℚ,
    l.foldl (fun acc x => some (match acc with | none => x | some v => min v x)) (some m) =
      some (l.foldl min m) := by
  induction l with
  | nil => intro m; rfl
  | cons a t ih => intro m; exact ih (min m a)

/-- `minQ?` on a nonempty list is a `min` fold from the head. -/
theorem minQ?_cons (a : ℚ) (l : List ℚ) : minQ? (a :: l) = some (l.foldl min a) := by
  unfold minQ?
  exact foldl_minQ_some l a

/-- A `min` fold distributes over `min` in the seed. -/
theorem foldl_min_min (l : List ℚ) : ∀ m n : ℚ,
    l.foldl min (min m n) = min m (l.foldl min n) := by
  induction l with
  | nil => intro m n; rfl
  | cons a t ih =>
    intro m n
    rw [List.foldl_cons, List.foldl_cons, min_assoc]
    exact ih m (min n a)

/-- Python `min` is unchanged by duplicating the list. -/
theorem minQ?_self_append (l : List ℚ) : minQ? (l ++ l) = minQ? l := by
  cases l with
  | nil => rfl
  | cons a t =>
    rw [List.cons_append, minQ?_cons, minQ?_cons, List.foldl_append, List.foldl_cons,
      foldl_min_min, min_self]

/-- Dropping a prefix of an append, within the first part. -/
theorem drop_append_le {α : Type} (l₁ l₂ : List α) (n : ℕ) (h : n ≤ l₁.length) :
    (l₁ ++ l₂).drop n = l₁.drop n ++ l₂ := by
  conv_lhs => rw [← List.take_append_drop n l₁, List.append_assoc]
  rw [List.drop_left' (by simp [List.length_take]; omega)]

namespace ICT

/-- The breaker mark never changes a block's type. -/
theorem breakerMark_type (p : ℚ) (b : OrderBlock) : (breakerMark p b).type = b.type := by
  unfold breakerMark
  split <;> rfl

/-- The breaker mark never changes a block's high. -/
theorem breakerMark_high (p : ℚ) (b : OrderBlock) : (breakerMark p b).high = b.high := by
  unfold breakerMark
  split <;> rfl

/-- The breaker mark never changes a block's low. -/
theorem breakerMark_low (p : ℚ) (b : OrderBlock) : (breakerMark p b).low = b.low := by
  unfold breakerMark
  split <;> rfl

/-- A block already marked against a price yields no breaker signal at that
price: the mark either sets `broken` or records that neither condition holds. -/
theorem breakerSignal_mark (p : ℚ) (b : OrderBlock) :
    breakerSignal p (breakerMark p b) = none := by
  unfold breakerMark
  split
  · rfl
  · next hcond =>
    unfold breakerSignal
    by_cases hb : b.broken = true
    · rw [if_pos hb]
    · have hb0 : b.broken = false := by
        cases hbb : b.broken
        · rfl
        · exact absurd hbb hb
      have hb' : (!b.broken) = true := by rw [hb0]; rfl
      rw [if_neg hb, if_neg (fun h2 => hcond ⟨hb', Or.inl h2⟩),
        if_neg (fun h3 => hcond ⟨hb', Or.inr h3⟩)]

/-- A fully marked window contributes no breaker signal. -/
theorem filterMap_breakerSignal_mark (p : ℚ) (l : List OrderBlock) :
    (l.map (breakerMark p)).filterMap (breakerSignal p) = [] := by
  induction l with
  | nil => rfl
  | cons a t ih => simp [List.filterMap_cons, breakerSignal_mark, ih]

/-- Filtered projections that the mark preserves are unchanged by marking. -/
theorem filter_map_mark (p : ℚ) (q : OrderBlock → Bool) (f : OrderBlock → ℚ)
    (hq : ∀ b, q (breakerMark p b) = q b) (hf : ∀ b, f (breakerMark p b) = f b)
    (l : List OrderBlock) :
    ((l.map (breakerMark p)).filter q).map f = (l.filter q).map f := by
  induction l with
  | nil => rfl
  | cons a t ih =>
    rw [List.map_cons, List.filter_cons, List.filter_cons, hq]
    cases q a
    · simpa using ih
    · simp [hf, ih]

/-- The breaker scan preserves every filtered projection the mark preserves. -/
theorem detect_fst_filter_map (obs : List OrderBlock) (r : List Candle)
    (q : OrderBlock → Bool) (f : OrderBlock → ℚ)
    (hq : ∀ p b, q (breakerMark p b) = q b) (hf : ∀ p b, f (breakerMark p b) = f b) :
    (((detect_breaker_blocks obs r).1.filter q).map f) = ((obs.filter q).map f) := by
  unfold detect_breaker_blocks
  split
  · rfl
  · show (((obs.take (obs.length - 10) ++ (obs.drop (obs.length - 10)).map
        (breakerMark (lastD r).c)).filter q).map f) = _
    rw [List.filter_append, List.map_append, filter_map_mark _ q f (hq _) (hf _),
      ← List.map_append, ← List.filter_append, List.take_append_drop]

/-- The breaker scan returns as many blocks as it was given. -/
theorem detect_fst_length (obs : List OrderBlock) (r : List Candle) :
    (detect_breaker_blocks obs r).1.length = obs.length := by
  unfold detect_breaker_blocks
  split
  · rfl
  · show (obs.take (obs.length - 10) ++ (obs.drop (obs.length - 10)).map
        (breakerMark (lastD r).c)).length = obs.length
    simp only [List.length_append, List.length_take, List.length_map, List.length_drop]
    omega

/-- Appending the scanned blocks to the originals is empty iff the originals
were. -/
theorem detect_append_isEmpty (obs : List OrderBlock) (r : List Candle) :
    ((detect_breaker_blocks obs r).1 ++ obs).isEmpty = obs.isEmpty := by
  cases hobs : obs with
  | nil =>
    have h0 := detect_fst_length [] r
    simp only [List.length_nil] at h0
    rw [List.length_eq_zero] at h0
    rw [h0]
    rfl
  | cons a t =>
    have h1 : (detect_breaker_blocks (a :: t) r).1 ++ a :: t ≠ [] := by
      simp
    rw [List.isEmpty_eq_false.mpr h1]
    rfl

/-- Appending the scanned blocks changes no bearish high, so not the max. -/
theorem maxBearHigh_detect_append (obs : List OrderBlock) (r : List Candle) :
    maxBearHigh ((detect_breaker_blocks obs r).1 ++ obs) = maxBearHigh obs := by
  unfold maxBearHigh
  rw [List.filter_append, List.map_append,
    detect_fst_filter_map obs r _ _ (fun p b => by rw [breakerMark_type])
      (fun p b => by rw [breakerMark_high])]
  exact maxQ?_self_append _

/-- Appending the scanned blocks changes no bullish low, so not the min. -/
theorem minBullLow_detect_append (obs : List OrderBlock) (r : List Candle) :
    minBullLow ((detect_breaker_blocks obs r).1 ++ obs) = minBullLow obs := by
  unfold minBullLow
  rw [List.filter_append, List.map_append,
    detect_fst_filter_map obs r _ _ (fun p b => by rw [breakerMark_type])
      (fun p b => by rw [breakerMark_low])]
  exact minQ?_self_append _

/-- The bullish BOS check only reads emptiness and the bearish-high max. -/
theorem check_bullish_congr (o1 o2 : List OrderBlock) (he : o1.isEmpty = o2.isEmpty)
    (hb : maxBearHigh o1 = maxBearHigh o2) (x : ℚ) :
    check_bullish_bos o1 x = check_bullish_bos o2 x := by
  unfold check_bullish_bos
  rw [he, hb]

/-- The bearish BOS check only reads emptiness and the bullish-low min. -/
theorem check_bearish_congr (o1 o2 : List OrderBlock) (he : o1.isEmpty = o2.isEmpty)
    (hl : minBullLow o1 = minBullLow o2) (x : ℚ) :
    check_bearish_bos o1 x = check_bearish_bos o2 x := by
  unfold check_bearish_bos
  rw [he, hl]

/-- One swing-scan step emits the same signals on two block lists that agree
on emptiness and the BOS extrema, whatever market structure each carries. -/
theorem msStep_fst_congr (o1 o2 : List OrderBlock) (he : o1.isEmpty = o2.isEmpty)
    (hb : maxBearHigh o1 = maxBearHigh o2) (hl : minBullLow o1 = minBullLow o2)
    (r : List Candle) (i : ℕ) (ms1 ms2 : MarketStructure) :
    (msStep o1 r i ms1).map Prod.fst = (msStep o2 r i ms2).map Prod.fst := by
  simp only [msStep]
  by_cases hsh : swingHighAt r i = true
  · rw [if_pos hsh, if_pos hsh, check_bullish_congr o1 o2 he hb]
    cases check_bullish_bos o2 (r.getD i default).h with
    | error e => rfl
    | ok v => cases v <;> rfl
  · rw [if_neg hsh, if_neg hsh]
    by_cases hsl : swingLowAt r i = true
    · rw [if_pos hsl, if_pos hsl, check_bearish_congr o1 o2 he hl]
      cases check_bearish_bos o2 (r.getD i default).l with
      | error e => rfl
      | ok v => cases v <;> rfl
    · rw [if_neg hsl, if_neg hsl]
      rfl

/-- The swing scan emits the same signals on two block lists that agree on
emptiness and the BOS extrema, from any two market structures. -/
theorem msScanGo_fst_congr (o1 o2 : List OrderBlock) (he : o1.isEmpty = o2.isEmpty)
    (hb : maxBearHigh o1 = maxBearHigh o2) (hl : minBullLow o1 = minBullLow o2)
    (r : List Candle) : ∀ (idx : List ℕ) (ms1 ms2 : MarketStructure),
    (msScanGo o1 r idx ms1).map Prod.fst = (msScanGo o2 r idx ms2).map Prod.fst := by
  intro idx
  induction idx with
  | nil => intro ms1 ms2; rfl
  | cons i rest ih =>
    intro ms1 ms2
    have hstep := msStep_fst_congr o1 o2 he hb hl r i ms1 ms2
    cases h1 : msStep o1 r i ms1 with
    | error e =>
      cases h2 : msStep o2 r i ms2 with
      | error e2 =>
        have he' : e = e2 := by
          rw [h1, h2] at hstep
          simpa [Except.map] using hstep
        subst he'
        simp [msScanGo, h1, h2]
      | ok p2 =>
        rw [h1, h2] at hstep
        simp [Except.map] at hstep
    | ok p1 =>
      cases h2 : msStep o2 r i ms2 with
      | error e2 =>
        rw [h1, h2] at hstep
        simp [Except.map] at hstep
      | ok p2 =>
        have hp : p1.1 = p2.1 := by
          rw [h1, h2] at hstep
          simpa [Except.map] using hstep
        have hrest := ih p1.2 p2.2
        cases g1 : msScanGo o1 r rest p1.2 with
        | error e =>
          cases g2 : msScanGo o2 r rest p2.2 with
          | error e2 =>
            have he' : e = e2 := by
              rw [g1, g2] at hrest
              simpa [Except.map] using hrest
            subst he'
            simp [msScanGo, h1, h2, g1, g2]
          | ok q2 =>
            rw [g1, g2] at hrest
            simp [Except.map] at hrest
        | ok q1 =>
          cases g2 : msScanGo o2 r rest p2.2 with
          | error e2 =>
            rw [g1, g2] at hrest
            simp [Except.map] at hrest
          | ok q2 =>
            have hq : q1.1 = q2.1 := by
              rw [g1, g2] at hrest
              simpa [Except.map] using hrest
            simp [msScanGo, h1, h2, g1, g2, Except.map, hp, hq]

/-- The market-structure analysis emits the same signals on two block lists
that agree on emptiness and the BOS extrema. -/
theorem amc_fst_congr (c : List Candle) (o1 o2 : List OrderBlock)
    (he : o1.isEmpty = o2.isEmpty) (hb : maxBearHigh o1 = maxBearHigh o2)
    (hl : minBullLow o1 = minBullLow o2) (ms1 ms2 : MarketStructure) :
    (analyze_market_structure c o1 ms1).map Prod.fst =
      (analyze_market_structure c o2 ms2).map Prod.fst := by
  unfold analyze_market_structure
  split
  · rfl
  · exact msScanGo_fst_congr o1 o2 he hb hl (tailN 10 c) _ ms1 ms2

/-- Re-scanning the breaker window after appending the already-scanned blocks
emits exactly the first scan's signals: the window again ends in the original
blocks, and any marked copies it still contains yield no signal. -/
theorem detect_snd_stable (N : List OrderBlock) (r : List Candle) :
    (detect_breaker_blocks ((detect_breaker_blocks N r).1 ++ N) r).2 =
      (detect_breaker_blocks N r).2 := by
  by_cases hr : r.length < 3
  · simp only [detect_breaker_blocks, if_pos hr]
  · simp only [detect_breaker_blocks, if_neg hr]
    have hM : (N.take (N.length - 10) ++ (N.drop (N.length - 10)).map
        (breakerMark (lastD r).c)).length = N.length := by
      simp only [List.length_append, List.length_take, List.length_map, List.length_drop]
      omega
    by_cases h10 : 10 ≤ N.length
    · rw [show (N.take (N.length - 10) ++ (N.drop (N.length - 10)).map
            (breakerMark (lastD r).c) ++ N).length - 10 =
          (N.take (N.length - 10) ++ (N.drop (N.length - 10)).map
            (breakerMark (lastD r).c)).length + (N.length - 10) from by
        simp only [List.length_append, List.length_take, List.length_map, List.length_drop]
        omega]
      rw [← List.drop_drop, List.drop_left' rfl]
    · have h0 : N.length - 10 = 0 := by omega
      rw [h0, List.take_zero, List.drop_zero, List.nil_append]
      have ht : (N.map (breakerMark (lastD r).c) ++ N).length - 10 ≤
          (N.map (breakerMark (lastD r).c)).length := by
        simp only [List.length_append, List.length_map]
        omega
      rw [drop_append_le _ _ _ ht, List.filterMap_append, ← List.map_drop,
        filterMap_breakerSignal_mark]
      rw [List.nil_append]

end ICT

/-- C10. Counterexample to "some candle list makes two successive calls with
the identical argument return different signal lists": starting from a fresh
detector, the state the first call accumulates never changes what an
identical second call emits — the BOS checks only read the max bearish high /
min bullish low (unchanged under duplication and marking), and the re-scanned
breaker window again ends in the same unmarked blocks. -/
theorem c10_counterexample :
    ¬ ∃ (c : List Candle) (s1 s2 : ICT.ICTState) (g1 g2 : List ICTSignalResult),
        ICT.analyze_candles .init c = .ok (s1, g1) ∧
        ICT.analyze_candles s1 c = .ok (s2, g2) ∧ g1 ≠ g2 := by
  rintro ⟨c, s1, s2, g1, g2, h1, h2, hne⟩
  apply hne
  simp only [ICT.analyze_candles] at h1 h2
  by_cases hlen : c.length < 50
  · rw [if_pos hlen] at h1 h2
    simp only [Except.ok.injEq, Prod.mk.injEq] at h1 h2
    rw [← h1.2, ← h2.2]
  · rw [if_neg hlen] at h1 h2
    simp only [ICT.ICTState.init] at h1
    rw [List.nil_append] at h1
    cases hms : ICT.analyze_market_structure c (ICT.newOrderBlocks c) .init with
    | error e =>
      rw [hms] at h1
      exact Except.noConfusion h1
    | ok pr =>
      obtain ⟨bos1, msA⟩ := pr
      rw [hms] at h1
      simp only [Except.ok.injEq, Prod.mk.injEq] at h1
      obtain ⟨hs1, hg1⟩ := h1
      have horder : s1.order_blocks =
          (ICT.detect_breaker_blocks (ICT.newOrderBlocks c) (tailN 20 c)).1 := by
        rw [← hs1]
      have hmsA : s1.market_structure = msA := by
        rw [← hs1]
      rw [horder, hmsA] at h2
      have he := ICT.detect_append_isEmpty (ICT.newOrderBlocks c) (tailN 20 c)
      have hbm := ICT.maxBearHigh_detect_append (ICT.newOrderBlocks c) (tailN 20 c)
      have hlm := ICT.minBullLow_detect_append (ICT.newOrderBlocks c) (tailN 20 c)
      have hamc := ICT.amc_fst_congr c
        ((ICT.detect_breaker_blocks (ICT.newOrderBlocks c) (tailN 20 c)).1 ++
          ICT.newOrderBlocks c)
        (ICT.newOrderBlocks c) he hbm hlm msA .init
      rw [hms] at hamc
      cases hms2 : ICT.analyze_market_structure c
          ((ICT.detect_breaker_blocks (ICT.newOrderBlocks c) (tailN 20 c)).1 ++
            ICT.newOrderBlocks c) msA with
      | error e =>
        rw [hms2] at h2
        exact Except.noConfusion h2
      | ok pr2 =>
        obtain ⟨bos2, msB⟩ := pr2
        have hbos : bos2 = bos1 := by
          rw [hms2] at hamc
          simpa [Except.map] using hamc
        rw [hms2] at h2
        simp only [Except.ok.injEq, Prod.mk.injEq] at h2
        obtain ⟨hs2, hg2⟩ := h2
        rw [← hg1, ← hg2, hbos, ICT.detect_snd_stable]

end GloryPicks
